import Mathlib

/-!
# Notification and security integration resource handlers

A shallow embedding of `pkg/resources/notification_integration.go`,
`pkg/resources/security_integration.go` and `pkg/snowflake/security_integration.go`.

* `schema.ResourceData` (the host framework) is a record of the resource id, the
  prior values and the current values of every field.
* The database is a record of response functions; every statement handed to it
  is appended to a log, so that "which SQL was executed" is observable.
* A handler takes the resource data, the database and the log so far, and
  returns the error (if any), the resource data and the log afterwards.
-/

namespace snowflake

/-- Go `error` values as produced by `fmt.Errorf`: a plain message, or a message
that wraps another error through the `%w` verb. -/
inductive GoError where
  | errorf (msg : String)
  | wrapf (msg : String) (inner : GoError)
  deriving DecidableEq

/-- The value given to a property of a statement. -/
inductive PropertyValue where
  | str (s : String)
  | bool (b : Bool)
  | strList (l : List String)
  deriving DecidableEq

/-- One `key = value` property of a statement. -/
structure Property where
  key : String
  value : PropertyValue
  deriving DecidableEq

/-- The entity types used by the two resources. -/
inductive EntityType where
  | NotificationIntegrationType
  | SecurityIntegrationType
  deriving DecidableEq

/-- The `Builder` of `pkg/snowflake`: an entity type and a name. -/
structure Builder where
  entityType : EntityType
  name : String
  deriving DecidableEq

/-- Whether a setting builder came from `Create()` or from `Alter()`. -/
inductive BuilderKind where
  | create
  | alter
  deriving DecidableEq

/-- Modelled from the spec: the statement builder, which is not among the
sources ("the statement-builder abstraction that renders SET key=value clauses
into SQL text"). A setting builder is the kind of statement, the entity it is
for, and the properties given to it so far, in call order. -/
structure SettingBuilder where
  kind : BuilderKind
  entity : Builder
  props : List Property
  deriving DecidableEq

/-- A statement handed to the database. `statement b` is `b.Statement()` of a
create or alter builder, `showStmt` and `describeStmt` are the texts of
`Show()` and `Describe()`, and `text` is SQL written out in the handler. -/
inductive SQL where
  | statement (b : SettingBuilder)
  | showStmt (b : Builder)
  | describeStmt (b : Builder)
  | text (s : String)
  deriving DecidableEq

/-- The `sql.NullString` of `database/sql`. -/
structure NullString where
  Valid : Bool
  String : String
  deriving DecidableEq

/-- The `sql.NullBool` of `database/sql`. -/
structure NullBool where
  Valid : Bool
  Bool : Bool
  deriving DecidableEq

/-- The row of `SHOW SECURITY INTEGRATIONS` (`securityIntegration`). -/
structure securityIntegration where
  Name : NullString
  Category : NullString
  IntegrationType : NullString
  CreatedOn : NullString
  Enabled : NullBool
  deriving DecidableEq

/-- Modelled from the spec: the row of `SHOW NOTIFICATION INTEGRATIONS`, whose
declaration is not among the sources; it has the same columns as
`securityIntegration`, of which the handler reads `Name`, `Category`,
`CreatedOn` and `Enabled`. -/
structure notificationIntegration where
  Name : NullString
  Category : NullString
  IntegrationType : NullString
  CreatedOn : NullString
  Enabled : NullBool
  deriving DecidableEq

/-- One row of `DESCRIBE INTEGRATION` as scanned by `rows.Scan(&k, &pType, &v, &unused)`. -/
structure DescribeRow where
  k : String
  pType : String
  v : String
  unused : String
  deriving DecidableEq

/-- The database. Each response may depend on the statements received before. -/
structure DB where
  /-- The error of `snowflake.Exec(db, stmt)`, `none` for success. -/
  Exec : List SQL → SQL → Option GoError
  /-- The result of `QueryRow` followed by `ScanNotificationIntegration`. -/
  ScanNotificationIntegration : List SQL → SQL → Except GoError notificationIntegration
  /-- The result of `QueryRow` followed by `ScanSecurityIntegration`. -/
  ScanSecurityIntegration : List SQL → SQL → Except GoError securityIntegration
  /-- The result of `db.Query`: an error, or the rows, each of which scans or fails to. -/
  Query : List SQL → SQL → Except GoError (List (Except GoError DescribeRow))

/-- `snowflake.NotificationIntegration(name)`. -/
def NotificationIntegration (name : String) : Builder :=
  { entityType := .NotificationIntegrationType, name := name }

/-- `snowflake.SecurityIntegration(name)`. -/
def SecurityIntegration (name : String) : Builder :=
  { entityType := .SecurityIntegrationType, name := name }

/-- `Builder.Create()`: a create statement without properties. -/
def Builder.Create (b : Builder) : SettingBuilder :=
  { kind := .create, entity := b, props := [] }

/-- `Builder.Alter()`: an alter statement without properties. -/
def Builder.Alter (b : Builder) : SettingBuilder :=
  { kind := .alter, entity := b, props := [] }

/-- `Builder.Show()`. -/
def Builder.Show (b : Builder) : SQL := .showStmt b

/-- `Builder.Describe()`. -/
def Builder.Describe (b : Builder) : SQL := .describeStmt b

/-- `SettingBuilder.SetString(key, value)`. -/
def SettingBuilder.SetString (b : SettingBuilder) (key value : String) : SettingBuilder :=
  { b with props := b.props ++ [{ key := key, value := .str value }] }

/-- `SettingBuilder.SetBool(key, value)`. -/
def SettingBuilder.SetBool (b : SettingBuilder) (key : String) (value : Bool) : SettingBuilder :=
  { b with props := b.props ++ [{ key := key, value := .bool value }] }

/-- `SettingBuilder.SetStringList(key, value)`. -/
def SettingBuilder.SetStringList (b : SettingBuilder) (key : String) (value : List String) :
    SettingBuilder :=
  { b with props := b.props ++ [{ key := key, value := .strList value }] }

/-- `SettingBuilder.Statement()`. -/
def SettingBuilder.Statement (b : SettingBuilder) : SQL := .statement b

end snowflake

namespace schema

/-- A value of a schema field: `TypeString`, `TypeBool` or a `TypeList` of strings. -/
inductive Value where
  | str (s : String)
  | bool (b : Bool)
  | list (l : List String)
  deriving DecidableEq

/-- The type assertion `v.(string)`; the schema gives every field one type, so
the assertion is only ever applied to a string. -/
def Value.asString : Value → String
  | .str s => s
  | _ => ""

/-- The type assertion `v.(bool)`. -/
def Value.asBool : Value → Bool
  | .bool b => b
  | _ => false

/-- The type assertion `v.([]interface{})`, the elements being strings. -/
def Value.asList : Value → List String
  | .list l => l
  | _ => []

/-- Whether a value is the zero value of its type. -/
def Value.isZero : Value → Bool
  | .str s => s == ""
  | .bool b => b == false
  | .list l => l.isEmpty

/-- The `schema.ResourceData` of the host framework. A field that is not set
reads as the zero value of its type, as `Get` returns it. -/
structure ResourceData where
  /-- The resource id, `""` while unset. -/
  id : String
  /-- The value of each field in the prior state. -/
  old : String → Value
  /-- The current value of each field: the configuration, then what `Set` wrote. -/
  new : String → Value

/-- `d.Id()`. -/
def ResourceData.Id (d : ResourceData) : String := d.id

/-- `d.SetId(v)`. -/
def ResourceData.SetId (d : ResourceData) (v : String) : ResourceData := { d with id := v }

/-- `d.Get(key)`. -/
def ResourceData.Get (d : ResourceData) (key : String) : Value := d.new key

/-- `d.GetOk(key)`: the value, and whether it is set to something other than
the zero value of its type. -/
def ResourceData.GetOk (d : ResourceData) (key : String) : Value × Bool :=
  (d.new key, !(d.new key).isZero)

/-- `d.HasChange(key)`: the prior and the current value differ. -/
def ResourceData.HasChange (d : ResourceData) (key : String) : Bool :=
  decide (d.old key ≠ d.new key)

/-- `d.Set(key, value)`; the keys and value types used by the handlers are those
of the schema, for which `Set` returns no error. -/
def ResourceData.Set (d : ResourceData) (key : String) (value : Value) : ResourceData :=
  { d with new := fun k => if k = key then value else d.new k }

end schema

namespace resources

open snowflake schema

/-- What a handler leaves behind: its error, the resource data, and every
statement received by the database so far. -/
structure Result where
  err : Option GoError
  d : ResourceData
  log : List SQL

/-- `setNotificationProviderSettings`: the error returned and the builder as the
call leaves it. -/
def setNotificationProviderSettings (data : ResourceData) (stmt : SettingBuilder) :
    Option GoError × SettingBuilder :=
  let notificationProvider := (data.Get "notification_provider").asString
  let stmt := stmt.SetString "NOTIFICATION_PROVIDER" notificationProvider
  if notificationProvider = "azure_storage_queue" ∨ notificationProvider = "AZURE_STORAGE_QUEUE" then
    let storage_queue := (data.GetOk "azure_storage_queue_primary_uri").1
    let ok := (data.GetOk "azure_storage_queue_primary_uri").2
    if !ok then
      (some (.errorf "If you use the Azure notification provider you must specify an azure_storage_queue_primary_uri"), stmt)
    else
      let stmt := stmt.SetString "AZURE_STORAGE_QUEUE_PRIMARY_URI" storage_queue.asString
      let tenant_id := (data.GetOk "azure_tenant_id").1
      let ok := (data.GetOk "azure_tenant_id").2
      if !ok then
        (some (.errorf "If you use the Azure storage provider you must specify an azure_tenant_id"), stmt)
      else
        let stmt := stmt.SetString "AZURE_TENANT_ID" tenant_id.asString
        (none, stmt)
  else if notificationProvider = "GCP_PUBSUB" then
    -- nothing to set here
    (none, stmt)
  else
    (some (.errorf ("Unexpected provider::  " ++ notificationProvider)), stmt)

/-- The body of the loop over the DESCRIBE rows in `ReadNotificationIntegration`
(the `switch k`), for a row that scanned. -/
def ReadNotificationIntegration.describeRow (d : ResourceData) (r : DescribeRow) : ResourceData :=
  if r.k = "ENABLED" then
    -- We set this using the SHOW INTEGRATION call so let's ignore it here
    d
  else if r.k = "NOTIFICATION_PROVIDER" then
    d.Set "notification_provider" (.str r.v)
  else if r.k = "AZURE_STORAGE_QUEUE_PRIMARY_URI" then
    d.Set "azure_storage_queue_primary_uri" (.str r.v)
  else if r.k = "AZURE_TENANT_ID" then
    d.Set "azure_tenant_id" (.str r.v)
  else
    -- log.Printf("[WARN] unexpected property %v returned from Snowflake", k)
    d

/-- The loop `for rows.Next()` of `ReadNotificationIntegration`: a row that fails
to scan ends the function with that error. -/
def ReadNotificationIntegration.describeRows (d : ResourceData) :
    List (Except GoError DescribeRow) → Option GoError × ResourceData
  | [] => (none, d)
  | .error err :: _ => (some err, d)
  | .ok r :: rows => ReadNotificationIntegration.describeRows
      (ReadNotificationIntegration.describeRow d r) rows

/-- `ReadNotificationIntegration`. -/
def ReadNotificationIntegration (d : ResourceData) (db : DB) (log : List SQL) : Result :=
  let id := d.Id
  let stmt := (snowflake.NotificationIntegration d.Id).Show
  match db.ScanNotificationIntegration log stmt with
  | .error err =>
    ⟨some (.wrapf "Could not show notification integration: %w" err), d, log ++ [stmt]⟩
  | .ok s =>
    let log := log ++ [stmt]
    -- Note: category must be STORAGE or something is broken
    let c := s.Category.String
    if c ≠ "NOTIFICATION" then
      ⟨some (.errorf ("Expected " ++ id ++ " to be a NOTIFICATION integration, got " ++ c)), d, log⟩
    else
      let d := d.Set "name" (.str s.Name.String)
      let d := d.Set "created_on" (.str s.CreatedOn.String)
      let d := d.Set "enabled" (.bool s.Enabled.Bool)
      let stmt := (snowflake.NotificationIntegration d.Id).Describe
      match db.Query log stmt with
      | .error err =>
        ⟨some (.wrapf "Could not describe notification integration: %w" err), d, log ++ [stmt]⟩
      | .ok rows =>
        let r := ReadNotificationIntegration.describeRows d rows
        ⟨r.1, r.2, log ++ [stmt]⟩

/-- `CreateNotificationIntegration`. -/
def CreateNotificationIntegration (d : ResourceData) (db : DB) (log : List SQL) : Result :=
  let name := (d.Get "name").asString
  let stmt := (snowflake.NotificationIntegration name).Create
  -- Set required fields
  let stmt := stmt.SetString "TYPE" (d.Get "type").asString
  let stmt := stmt.SetBool "ENABLED" (d.Get "enabled").asBool
  -- Set optional fields
  let stmt := if (d.GetOk "comment").2 then
      stmt.SetString "COMMENT" (d.GetOk "comment").1.asString
    else stmt
  -- Now, set the notification provider
  match setNotificationProviderSettings d stmt with
  | (some err, _) => ⟨some err, d, log⟩
  | (none, stmt) =>
    match db.Exec log stmt.Statement with
    | some err =>
      ⟨some (.wrapf "error creating notification integration: %w" err), d, log ++ [stmt.Statement]⟩
    | none =>
      let d := d.SetId name
      ReadNotificationIntegration d db (log ++ [stmt.Statement])

/-- The end of `UpdateNotificationIntegration`: `if runSetStatement` executes
the statement, then the resource is read back. -/
def UpdateNotificationIntegration.run (d : ResourceData) (db : DB) (log : List SQL)
    (runSetStatement : Bool) (stmt : SettingBuilder) : Result :=
  if runSetStatement then
    match db.Exec log stmt.Statement with
    | some err =>
      ⟨some (.wrapf "error updating notification integration: %w" err), d, log ++ [stmt.Statement]⟩
    | none => ReadNotificationIntegration d db (log ++ [stmt.Statement])
  else
    ReadNotificationIntegration d db log

/-- `UpdateNotificationIntegration`. -/
def UpdateNotificationIntegration (d : ResourceData) (db : DB) (log : List SQL) : Result :=
  let id := d.Id
  let stmt := (snowflake.NotificationIntegration id).Alter
  let runSetStatement := false
  let (runSetStatement, stmt) :=
    if d.HasChange "comment" then
      (true, stmt.SetString "COMMENT" (d.Get "comment").asString)
    else (runSetStatement, stmt)
  let (runSetStatement, stmt) :=
    if d.HasChange "enabled" then
      (true, stmt.SetBool "ENABLED" (d.Get "enabled").asBool)
    else (runSetStatement, stmt)
  if d.HasChange "notification_provider" then
    let runSetStatement := true
    match setNotificationProviderSettings d stmt with
    | (some err, _) => ⟨some err, d, log⟩
    | (none, stmt) => UpdateNotificationIntegration.run d db log runSetStatement stmt
  else
    let (runSetStatement, stmt) :=
      if d.HasChange "azure_storage_queue_primary_uri" then
        (true, stmt.SetString "AZURE_STORAGE_QUEUE_PRIMARY_URI"
          (d.Get "azure_storage_queue_primary_uri").asString)
      else (runSetStatement, stmt)
    let (runSetStatement, stmt) :=
      if d.HasChange "azure_tenant_id" then
        (true, stmt.SetString "AZURE_TENANT_ID" (d.Get "azure_tenant_id").asString)
      else (runSetStatement, stmt)
    UpdateNotificationIntegration.run d db log runSetStatement stmt

/-- `strings.Split(s, sep)` of the Go library for a separator of one character:
the pieces of `s` between the occurrences of `sep`. -/
def stringsSplit (s : String) (sep : Char) : List String :=
  (s.data.splitOn sep).map String.mk

/-- The body of the loop over the DESCRIBE rows in `ReadSecurityIntegration`
(the `switch k`), for a row that scanned. -/
def ReadSecurityIntegration.describeRow (d : ResourceData) (r : DescribeRow) : ResourceData :=
  if r.k = "ENABLED" then
    -- We set this using the SHOW INTEGRATION call so let's ignore it here
    d
  else if r.k = "EXTERNAL_OAUTH_ISSUER" then
    d.Set "external_oauth_issuer" (.str r.v)
  else if r.k = "EXTERNAL_OAUTH_TOKEN_USER_MAPPING_CLAIM" then
    d.Set "external_oauth_token_user_mapping_claim" (.str r.v)
  else if r.k = "EXTERNAL_OAUTH_SNOWFLAKE_USER_MAPPING_ATTRIBUTE" then
    d.Set "external_oauth_snowflake_user_mapping_attribute" (.str r.v)
  else if r.k = "EXTERNAL_OAUTH_JWS_KEYS_URL" then
    d.Set "external_oauth_jws_keys_url" (.str r.v)
  else if r.k = "EXTERNAL_OAUTH_RSA_PUBLIC_KEY" then
    d.Set "external_oauth_rsa_public_key" (.str r.v)
  else if r.k = "EXTERNAL_OAUTH_RSA_PUBLIC_KEY_2" then
    d.Set "external_oauth_rsa_public_key_2" (.str r.v)
  else if r.k = "EXTERNAL_OAUTH_AUDIENCE_LIST" then
    let val := r.v
    if val ≠ "" then
      d.Set "external_oauth_audience_list" (.list (stringsSplit val ','))
    else d
  else if r.k = "EXTERNAL_OAUTH_ANY_ROLE_MODE" then
    d.Set "external_oauth_any_role_mode" (.str r.v)
  else
    -- log.Printf("[WARN] unexpected property %v returned from Snowflake", k)
    d

/-- The loop `for rows.Next()` of `ReadSecurityIntegration`: a row that fails to
scan ends the function with that error. -/
def ReadSecurityIntegration.describeRows (d : ResourceData) :
    List (Except GoError DescribeRow) → Option GoError × ResourceData
  | [] => (none, d)
  | .error err :: _ => (some err, d)
  | .ok r :: rows => ReadSecurityIntegration.describeRows
      (ReadSecurityIntegration.describeRow d r) rows

/-- `ReadSecurityIntegration`. -/
def ReadSecurityIntegration (d : ResourceData) (db : DB) (log : List SQL) : Result :=
  let id := d.Id
  let stmt := (snowflake.SecurityIntegration d.Id).Show
  match db.ScanSecurityIntegration log stmt with
  | .error err =>
    ⟨some (.wrapf "Could not show security integration: %w" err), d, log ++ [stmt]⟩
  | .ok s =>
    let log := log ++ [stmt]
    -- Note: category must be STORAGE or something is broken
    let c := s.Category.String
    if c ≠ "SECURITY" then
      ⟨some (.errorf ("Expected " ++ id ++ " to be a SECURITY integration, got " ++ c)), d, log⟩
    else
      let d := d.Set "name" (.str s.Name.String)
      let d := d.Set "created_on" (.str s.CreatedOn.String)
      let d := d.Set "enabled" (.bool s.Enabled.Bool)
      let stmt := (snowflake.SecurityIntegration d.Id).Describe
      match db.Query log stmt with
      | .error err =>
        ⟨some (.wrapf "Could not describe security integration: %w" err), d, log ++ [stmt]⟩
      | .ok rows =>
        let r := ReadSecurityIntegration.describeRows d rows
        ⟨r.1, r.2, log ++ [stmt]⟩

/-- `setSecurityProviderSettings`: the error returned and the builder as the call
leaves it. The helper `expandStringList`, which turns the configured list into a
list of strings, is not among the sources and is a parameter. -/
def setSecurityProviderSettings (expandStringList : List String → List String)
    (data : ResourceData) (stmt : SettingBuilder) : Option GoError × SettingBuilder :=
  let securityIntegrationtype := (data.Get "type").asString
  let stmt := stmt.SetString "TYPE" securityIntegrationtype
  if securityIntegrationtype = "external_oauth" ∨ securityIntegrationtype = "EXTERNAL_OAUTH" then
    let external_oauth_type := (data.GetOk "external_oauth_type").1
    let ok := (data.GetOk "external_oauth_type").2
    if !ok then
      (some (.errorf "If you use external_oauth you must specify an external_oauth_type"), stmt)
    else
    let stmt := stmt.SetString "EXTERNAL_OAUTH_TYPE" external_oauth_type.asString
    let external_oauth_issuer := (data.GetOk "external_oauth_issuer").1
    let ok := (data.GetOk "external_oauth_issuer").2
    if !ok then
      (some (.errorf "If you use external_oauth you must specify an external_oauth_issuer"), stmt)
    else
    let stmt := stmt.SetString "EXTERNAL_OAUTH_ISSUER" external_oauth_issuer.asString
    let external_oauth_token_user_mapping_claim :=
      (data.GetOk "external_oauth_token_user_mapping_claim").1
    let ok := (data.GetOk "external_oauth_token_user_mapping_claim").2
    if !ok then
      (some (.errorf "If you use external_oauth you must specify an external_oauth_token_user_mapping_claim"), stmt)
    else
    let stmt := stmt.SetString "EXTERNAL_OAUTH_TOKEN_USER_MAPPING_CLAIM"
      external_oauth_token_user_mapping_claim.asString
    let external_oauth_snowflake_user_mapping_attribute :=
      (data.GetOk "external_oauth_snowflake_user_mapping_attribute").1
    let ok := (data.GetOk "external_oauth_snowflake_user_mapping_attribute").2
    if !ok then
      (some (.errorf "If you use external_oauth you must specify an external_oauth_snowflake_user_mapping_attribute"), stmt)
    else
    let stmt := stmt.SetString "EXTERNAL_OAUTH_SNOWFLAKE_USER_MAPPING_ATTRIBUTE"
      external_oauth_snowflake_user_mapping_attribute.asString
    let external_oauth_jws_keys_url := (data.GetOk "external_oauth_jws_keys_url").1
    let ok := (data.GetOk "external_oauth_jws_keys_url").2
    if !ok then
      (some (.errorf "If you use external_oauth you must specify an external_oauth_jws_keys_url"), stmt)
    else
    let stmt := stmt.SetString "EXTERNAL_OAUTH_JWS_KEYS_URL" external_oauth_jws_keys_url.asString
    let stmt := if (data.GetOk "external_oauth_rsa_public_key").2 then
        stmt.SetString "EXTERNAL_OAUTH_RSA_PUBLIC_KEY"
          (data.GetOk "external_oauth_rsa_public_key").1.asString
      else stmt
    let stmt := if (data.GetOk "external_oauth_rsa_public_key_2").2 then
        stmt.SetString "EXTERNAL_OAUTH_RSA_PUBLIC_KEY_2"
          (data.GetOk "external_oauth_rsa_public_key_2").1.asString
      else stmt
    let external_oauth_audience_list := (data.GetOk "external_oauth_audience_list").1
    let ok := (data.GetOk "external_oauth_audience_list").2
    if !ok then
      (some (.errorf "If you use external_oauth you must specify an external_oauth_audience_list"), stmt)
    else
    let stmt := stmt.SetStringList "external_oauth_audience_list"
      (expandStringList external_oauth_audience_list.asList)
    let external_oauth_any_role_mode := (data.GetOk "external_oauth_any_role_mode").1
    let ok := (data.GetOk "external_oauth_any_role_mode").2
    if !ok then
      (some (.errorf "If you use external_oauth you must specify an external_oauth_any_role_mode"), stmt)
    else
    let stmt := stmt.SetString "EXTERNAL_OAUTH_ANY_ROLE_MODE" external_oauth_any_role_mode.asString
    (none, stmt)
  else if securityIntegrationtype = "PING_FEDERATE" then
    -- nothing to set here
    (none, stmt)
  else if securityIntegrationtype = "OKTA" then
    -- nothing to set here
    (none, stmt)
  else if securityIntegrationtype = "CUSTOM" then
    -- nothing to set here
    (none, stmt)
  else
    (some (.errorf ("Unexpected security integration type::  " ++ securityIntegrationtype)), stmt)

/-- `CreateSecurityIntegration`. -/
def CreateSecurityIntegration (expandStringList : List String → List String)
    (d : ResourceData) (db : DB) (log : List SQL) : Result :=
  let name := (d.Get "name").asString
  let stmt := (snowflake.SecurityIntegration name).Create
  -- Set required fields
  let stmt := stmt.SetBool "ENABLED" (d.Get "enabled").asBool
  -- Set optional fields
  let stmt := if (d.GetOk "comment").2 then
      stmt.SetString "COMMENT" (d.GetOk "comment").1.asString
    else stmt
  -- Now, set the security provider
  match setSecurityProviderSettings expandStringList d stmt with
  | (some err, _) => ⟨some err, d, log⟩
  | (none, stmt) =>
    match db.Exec log stmt.Statement with
    | some err =>
      ⟨some (.wrapf "error creating security integration: %w" err), d, log ++ [stmt.Statement]⟩
    | none =>
      let d := d.SetId name
      ⟨none, d, log ++ [stmt.Statement]⟩

/-- The end of `UpdateSecurityIntegration`: `if runSetStatement` executes the
statement, then the resource is read back. -/
def UpdateSecurityIntegration.run (d : ResourceData) (db : DB) (log : List SQL)
    (runSetStatement : Bool) (stmt : SettingBuilder) : Result :=
  if runSetStatement then
    match db.Exec log stmt.Statement with
    | some err =>
      ⟨some (.wrapf "error updating security integration: %w" err), d, log ++ [stmt.Statement]⟩
    | none => ReadSecurityIntegration d db (log ++ [stmt.Statement])
  else
    ReadSecurityIntegration d db log

/-- The part of `UpdateSecurityIntegration` after the audience list: the check
of `external_oauth_any_role_mode`, then the end of the function. -/
def UpdateSecurityIntegration.anyRoleMode (d : ResourceData) (db : DB) (log : List SQL)
    (runSetStatement : Bool) (stmt : SettingBuilder) : Result :=
  let (runSetStatement, stmt) :=
    if d.HasChange "external_oauth_any_role_mode" then
      (true, stmt.SetString "EXTERNAL_OAUTH_ANY_ROLE_MODE"
        (d.Get "external_oauth_any_role_mode").asString)
    else (runSetStatement, stmt)
  UpdateSecurityIntegration.run d db log runSetStatement stmt

/-- `UpdateSecurityIntegration`. -/
def UpdateSecurityIntegration (expandStringList : List String → List String)
    (d : ResourceData) (db : DB) (log : List SQL) : Result :=
  let id := d.Id
  let stmt := (snowflake.SecurityIntegration id).Alter
  let runSetStatement := false
  let (runSetStatement, stmt) :=
    if d.HasChange "comment" then
      (true, stmt.SetString "COMMENT" (d.Get "comment").asString)
    else (runSetStatement, stmt)
  let (runSetStatement, stmt) :=
    if d.HasChange "enabled" then
      (true, stmt.SetBool "ENABLED" (d.Get "enabled").asBool)
    else (runSetStatement, stmt)
  if d.HasChange "type" then
    let runSetStatement := true
    match setSecurityProviderSettings expandStringList d stmt with
    | (some err, _) => ⟨some err, d, log⟩
    | (none, stmt) => UpdateSecurityIntegration.run d db log runSetStatement stmt
  else
    let (runSetStatement, stmt) :=
      if d.HasChange "external_oauth_type" then
        (true, stmt.SetString "EXTERNAL_OAUTH_TYPE" (d.Get "external_oauth_type").asString)
      else (runSetStatement, stmt)
    let (runSetStatement, stmt) :=
      if d.HasChange "external_oauth_issuer" then
        (true, stmt.SetString "EXTERNAL_OAUTH_ISSUER" (d.Get "external_oauth_issuer").asString)
      else (runSetStatement, stmt)
    let (runSetStatement, stmt) :=
      if d.HasChange "external_oauth_token_user_mapping_claim" then
        (true, stmt.SetString "EXTERNAL_OAUTH_TOKEN_USER_MAPPING_CLAIM"
          (d.Get "external_oauth_token_user_mapping_claim").asString)
      else (runSetStatement, stmt)
    let (runSetStatement, stmt) :=
      if d.HasChange "external_oauth_snowflake_user_mapping_attribute" then
        (true, stmt.SetString "EXTERNAL_OAUTH_SNOWFLAKE_USER_MAPPING_ATTRIBUTE"
          (d.Get "external_oauth_snowflake_user_mapping_attribute").asString)
      else (runSetStatement, stmt)
    let (runSetStatement, stmt) :=
      if d.HasChange "external_oauth_jws_keys_url" then
        (true, stmt.SetString "EXTERNAL_OAUTH_JWS_KEYS_URL"
          (d.Get "external_oauth_jws_keys_url").asString)
      else (runSetStatement, stmt)
    let (runSetStatement, stmt) :=
      if d.HasChange "external_oauth_rsa_public_key" then
        (true, stmt.SetString "EXTERNAL_OAUTH_RSA_PUBLIC_KEY"
          (d.Get "external_oauth_rsa_public_key").asString)
      else (runSetStatement, stmt)
    let (runSetStatement, stmt) :=
      if d.HasChange "external_oauth_rsa_public_key_2" then
        (true, stmt.SetString "EXTERNAL_OAUTH_RSA_PUBLIC_KEY_2"
          (d.Get "external_oauth_rsa_public_key_2").asString)
      else (runSetStatement, stmt)
    if d.HasChange "external_oauth_audience_list" then
      let v := (d.Get "external_oauth_audience_list").asList
      if v.length = 0 then
        let unset := SQL.text
          ("ALTER SECURITY INTEGRATION " ++ d.Id ++ " UNSET EXTERNAL_OAUTH_AUDIENCE_LIST")
        match db.Exec log unset with
        | some err =>
          ⟨some (.wrapf "error unsetting external_oauth_audience_list %w" err), d, log ++ [unset]⟩
        | none =>
          UpdateSecurityIntegration.anyRoleMode d db (log ++ [unset]) runSetStatement stmt
      else
        let runSetStatement := true
        let stmt := stmt.SetStringList "EXTERNAL_OAUTH_AUDIENCE_LIST" (expandStringList v)
        UpdateSecurityIntegration.anyRoleMode d db log runSetStatement stmt
    else
      UpdateSecurityIntegration.anyRoleMode d db log runSetStatement stmt

end resources

namespace snowflake

/-- A query: the text of a `Show()` or of a `Describe()`. -/
def SQL.isQuery : SQL → Bool
  | .showStmt _ => true
  | .describeStmt _ => true
  | _ => false

end snowflake

namespace validation

/-- The comparison of `validation.StringInSlice` when `ignoreCase` is set: the
two strings agree once their letters are lower-cased. -/
def equalFold (a b : String) : Bool :=
  a.data.map Char.toLower == b.data.map Char.toLower

/-- `validation.StringInSlice(valid, ignoreCase)` of the host framework, as the
predicate "the value is accepted". -/
def StringInSlice (valid : List String) (ignoreCase : Bool) (v : String) : Bool :=
  valid.any fun str => v == str || (ignoreCase && equalFold v str)

end validation

namespace resources

open snowflake schema

/-- The `ValidateFunc` of `notification_provider` in `notificationIntegrationSchema`. -/
def notificationProviderValidate (v : String) : Bool :=
  validation.StringInSlice ["GCP_PUBSUB", "AZURE_STORAGE_QUEUE"] true v

/-- The statements a handler handed to the database: what its result has in the
log beyond the log it started from. -/
def executedSince (log : List SQL) (r : Result) : List SQL := r.log.drop log.length

/-- The properties of the changed fields among `comment`, `enabled`,
`azure_storage_queue_primary_uri` and `azure_tenant_id`, each with its current
value. -/
def changedNotificationProps (d : ResourceData) : List Property :=
  (if d.HasChange "comment" then [⟨"COMMENT", .str (d.Get "comment").asString⟩] else []) ++
  (if d.HasChange "enabled" then [⟨"ENABLED", .bool (d.Get "enabled").asBool⟩] else []) ++
  (if d.HasChange "azure_storage_queue_primary_uri" then
    [⟨"AZURE_STORAGE_QUEUE_PRIMARY_URI", .str (d.Get "azure_storage_queue_primary_uri").asString⟩]
    else []) ++
  (if d.HasChange "azure_tenant_id" then
    [⟨"AZURE_TENANT_ID", .str (d.Get "azure_tenant_id").asString⟩] else [])

/-- The properties of the changed fields of a security integration that come
before the audience list, each with its current value. -/
def changedSecurityProps (d : ResourceData) : List Property :=
  (if d.HasChange "comment" then [⟨"COMMENT", .str (d.Get "comment").asString⟩] else []) ++
  (if d.HasChange "enabled" then [⟨"ENABLED", .bool (d.Get "enabled").asBool⟩] else []) ++
  (if d.HasChange "external_oauth_type" then
    [⟨"EXTERNAL_OAUTH_TYPE", .str (d.Get "external_oauth_type").asString⟩] else []) ++
  (if d.HasChange "external_oauth_issuer" then
    [⟨"EXTERNAL_OAUTH_ISSUER", .str (d.Get "external_oauth_issuer").asString⟩] else []) ++
  (if d.HasChange "external_oauth_token_user_mapping_claim" then
    [⟨"EXTERNAL_OAUTH_TOKEN_USER_MAPPING_CLAIM",
      .str (d.Get "external_oauth_token_user_mapping_claim").asString⟩] else []) ++
  (if d.HasChange "external_oauth_snowflake_user_mapping_attribute" then
    [⟨"EXTERNAL_OAUTH_SNOWFLAKE_USER_MAPPING_ATTRIBUTE",
      .str (d.Get "external_oauth_snowflake_user_mapping_attribute").asString⟩] else []) ++
  (if d.HasChange "external_oauth_jws_keys_url" then
    [⟨"EXTERNAL_OAUTH_JWS_KEYS_URL", .str (d.Get "external_oauth_jws_keys_url").asString⟩]
    else []) ++
  (if d.HasChange "external_oauth_rsa_public_key" then
    [⟨"EXTERNAL_OAUTH_RSA_PUBLIC_KEY", .str (d.Get "external_oauth_rsa_public_key").asString⟩]
    else []) ++
  (if d.HasChange "external_oauth_rsa_public_key_2" then
    [⟨"EXTERNAL_OAUTH_RSA_PUBLIC_KEY_2", .str (d.Get "external_oauth_rsa_public_key_2").asString⟩]
    else [])

/-- Whether one of the fields of a security integration that come before the
audience list has changed. -/
def changedSecurityRun (d : ResourceData) : Bool :=
  d.HasChange "comment" || d.HasChange "enabled" || d.HasChange "external_oauth_type" ||
  d.HasChange "external_oauth_issuer" || d.HasChange "external_oauth_token_user_mapping_claim" ||
  d.HasChange "external_oauth_snowflake_user_mapping_attribute" ||
  d.HasChange "external_oauth_jws_keys_url" || d.HasChange "external_oauth_rsa_public_key" ||
  d.HasChange "external_oauth_rsa_public_key_2"

/-- The property of a changed `external_oauth_any_role_mode`, the field that
comes after the audience list. -/
def changedAnyRoleMode (d : ResourceData) : List Property :=
  if d.HasChange "external_oauth_any_role_mode" = true then
    [⟨"EXTERNAL_OAUTH_ANY_ROLE_MODE", .str (d.Get "external_oauth_any_role_mode").asString⟩]
  else []

/-- The statement that unsets the audience list of the resource. -/
def unsetAudienceList (d : ResourceData) : SQL :=
  .text ("ALTER SECURITY INTEGRATION " ++ d.Id ++ " UNSET EXTERNAL_OAUTH_AUDIENCE_LIST")

/-- What it is for a create handler to be atomic with respect to validation and
execution. Here `helper stmt` is the error of the provider-settings helper for
the resource data `d`, `entity` the builder for the configured name, `format`
the format of the error that wraps the SQL error, and `r` the result of the
handler on `d`, `db` and `log`:
* an error of the helper is the result of the handler, with no SQL executed and
  the resource data (the id with them) as they were;
* when the helper succeeds there is a CREATE statement such that, if its
  execution fails, the result is the wrapped SQL error with the resource data as
  they were, and if it succeeds, the id is the configured name and the statement
  is the first one executed;
* the id differs from the one before only if it is the configured name and the
  CREATE statement was executed first and without error. -/
def CreateIsAtomic (helper : SettingBuilder → Option GoError) (entity : Builder)
    (format : String) (d : ResourceData) (db : DB) (log : List SQL) (r : Result) : Prop :=
  (∀ err stmt, helper stmt = some err → r = ⟨some err, d, log⟩) ∧
  ((∀ stmt, helper stmt = none) →
    ∃ stmt, stmt.kind = .create ∧ stmt.entity = entity ∧
      (∀ err, db.Exec log (.statement stmt) = some err →
        r = ⟨some (.wrapf format err), d, log ++ [.statement stmt]⟩) ∧
      (db.Exec log (.statement stmt) = none →
        r.d.Id = entity.name ∧ (executedSince log r).head? = some (.statement stmt))) ∧
  (r.d.Id ≠ d.Id →
    r.d.Id = entity.name ∧
    ∃ stmt, stmt.kind = .create ∧ db.Exec log (.statement stmt) = none ∧
      (executedSince log r).head? = some (.statement stmt))

/-! ## Example inputs -/

/-- The field values given by a list of pairs; a field that is not listed is an
unset string. -/
def fieldsOf (l : List (String × Value)) : String → Value :=
  fun k => (l.lookup k).getD (.str "")

/-- A database on which every statement succeeds, SHOW returns a row of the
right category and DESCRIBE returns two rows. -/
def exampleDB : DB :=
  { Exec := fun _ _ => none
    ScanNotificationIntegration := fun _ _ => .ok
      ⟨⟨true, "INT1"⟩, ⟨true, "NOTIFICATION"⟩, ⟨true, "QUEUE - AZURE_STORAGE_QUEUE"⟩,
        ⟨true, "2021-03-01 10:00:00"⟩, ⟨true, true⟩⟩
    ScanSecurityIntegration := fun _ _ => .ok
      ⟨⟨true, "SEC1"⟩, ⟨true, "SECURITY"⟩, ⟨true, "EXTERNAL_OAUTH - CUSTOM"⟩,
        ⟨true, "2021-03-01 10:00:00"⟩, ⟨true, true⟩⟩
    Query := fun _ _ => .ok
      [.ok ⟨"ENABLED", "Boolean", "true", "false"⟩, .ok ⟨"COMMENT", "String", "", ""⟩] }

/-- A database whose SHOW returns a row of category `STORAGE`. -/
def storageDB : DB :=
  { exampleDB with
    ScanNotificationIntegration := fun _ _ => .ok
      ⟨⟨true, "INT1"⟩, ⟨true, "STORAGE"⟩, ⟨true, "EXTERNAL_STAGE"⟩,
        ⟨true, "2021-03-01 10:00:00"⟩, ⟨true, true⟩⟩
    ScanSecurityIntegration := fun _ _ => .ok
      ⟨⟨true, "SEC1"⟩, ⟨true, "STORAGE"⟩, ⟨true, "EXTERNAL_STAGE"⟩,
        ⟨true, "2021-03-01 10:00:00"⟩, ⟨true, true⟩⟩ }

/-- A GCP notification integration of which only `azure_tenant_id` has changed. -/
def gcpData : ResourceData :=
  { id := "INT1"
    old := fieldsOf [("name", .str "INT1"), ("type", .str "QUEUE"), ("enabled", .bool true),
      ("notification_provider", .str "GCP_PUBSUB"),
      ("azure_storage_queue_primary_uri", .str "unused"), ("azure_tenant_id", .str "t0")]
    new := fieldsOf [("name", .str "INT1"), ("type", .str "QUEUE"), ("enabled", .bool true),
      ("notification_provider", .str "GCP_PUBSUB"),
      ("azure_storage_queue_primary_uri", .str "unused"), ("azure_tenant_id", .str "t1")] }

/-- A new notification integration whose provider is written `gcp_pubsub`. -/
def lowerGcpData : ResourceData :=
  { id := ""
    old := fieldsOf []
    new := fieldsOf [("name", .str "INT1"), ("type", .str "QUEUE"), ("enabled", .bool true),
      ("notification_provider", .str "gcp_pubsub"),
      ("azure_storage_queue_primary_uri", .str "unused"), ("azure_tenant_id", .str "t0")] }

/-- A notification integration moved from GCP to Azure. -/
def azureData : ResourceData :=
  { id := "INT1"
    old := fieldsOf [("name", .str "INT1"), ("type", .str "QUEUE"), ("enabled", .bool true),
      ("notification_provider", .str "GCP_PUBSUB"),
      ("azure_storage_queue_primary_uri", .str "https://acct.queue.core.windows.net/q"),
      ("azure_tenant_id", .str "t0")]
    new := fieldsOf [("name", .str "INT1"), ("type", .str "QUEUE"), ("enabled", .bool true),
      ("notification_provider", .str "AZURE_STORAGE_QUEUE"),
      ("azure_storage_queue_primary_uri", .str "https://acct.queue.core.windows.net/q"),
      ("azure_tenant_id", .str "t0")] }

/-- An Azure notification integration whose comment has been emptied. -/
def commentData : ResourceData :=
  { id := "INT1"
    old := fieldsOf [("name", .str "INT1"), ("comment", .str "old"), ("enabled", .bool true),
      ("notification_provider", .str "AZURE_STORAGE_QUEUE"),
      ("azure_storage_queue_primary_uri", .str "https://acct.queue.core.windows.net/q"),
      ("azure_tenant_id", .str "t0")]
    new := fieldsOf [("name", .str "INT1"), ("comment", .str ""), ("enabled", .bool true),
      ("notification_provider", .str "AZURE_STORAGE_QUEUE"),
      ("azure_storage_queue_primary_uri", .str "https://acct.queue.core.windows.net/q"),
      ("azure_tenant_id", .str "t0")] }

/-- An external OAuth security integration with the four required fields and
neither `external_oauth_jws_keys_url` nor `external_oauth_audience_list`. -/
def oauthData : ResourceData :=
  { id := ""
    old := fieldsOf []
    new := fieldsOf [("name", .str "SEC1"), ("enabled", .bool true),
      ("type", .str "EXTERNAL_OAUTH"), ("external_oauth_type", .str "CUSTOM"),
      ("external_oauth_issuer", .str "https://issuer.example"),
      ("external_oauth_token_user_mapping_claim", .str "upn"),
      ("external_oauth_snowflake_user_mapping_attribute", .str "LOGIN_NAME"),
      ("external_oauth_rsa_public_key", .str "MIIB"),
      ("external_oauth_audience_list", .list []),
      ("external_oauth_any_role_mode", .str "ENABLE")] }

/-- A security integration of which only the audience list has changed, to the
empty list. -/
def audienceData : ResourceData :=
  { id := "SEC1"
    old := fieldsOf [("name", .str "SEC1"), ("enabled", .bool true),
      ("type", .str "EXTERNAL_OAUTH"), ("external_oauth_audience_list", .list ["a", "b"])]
    new := fieldsOf [("name", .str "SEC1"), ("enabled", .bool true),
      ("type", .str "EXTERNAL_OAUTH"), ("external_oauth_audience_list", .list [])] }

/-- `strings.Join(elems, sep)` of the Go library for a separator of one
character: the elements with `sep` between each two. -/
def stringsJoin (elems : List String) (sep : Char) : String :=
  String.mk ([sep].intercalate (elems.map String.data))

/-- An external OAuth security integration with every field of the helper set;
its audience list has changed from `a` to `a, b`. -/
def oauthFullData : ResourceData :=
  { id := "SEC1"
    old := fieldsOf [("name", .str "SEC1"), ("enabled", .bool true),
      ("type", .str "EXTERNAL_OAUTH"), ("external_oauth_type", .str "CUSTOM"),
      ("external_oauth_issuer", .str "https://issuer.example"),
      ("external_oauth_token_user_mapping_claim", .str "upn"),
      ("external_oauth_snowflake_user_mapping_attribute", .str "LOGIN_NAME"),
      ("external_oauth_jws_keys_url", .str "https://issuer.example/keys"),
      ("external_oauth_audience_list", .list ["a"]),
      ("external_oauth_any_role_mode", .str "ENABLE")]
    new := fieldsOf [("name", .str "SEC1"), ("enabled", .bool true),
      ("type", .str "EXTERNAL_OAUTH"), ("external_oauth_type", .str "CUSTOM"),
      ("external_oauth_issuer", .str "https://issuer.example"),
      ("external_oauth_token_user_mapping_claim", .str "upn"),
      ("external_oauth_snowflake_user_mapping_attribute", .str "LOGIN_NAME"),
      ("external_oauth_jws_keys_url", .str "https://issuer.example/keys"),
      ("external_oauth_audience_list", .list ["a", "b"]),
      ("external_oauth_any_role_mode", .str "ENABLE")] }

/-- Modelled from the spec: the helper `expandStringList` of the package, which
is not among the sources. It turns the configured list into a list of strings:
it goes through the elements in order and keeps each one that is a string other
than the empty string. -/
def expandStringList (configured : List String) : List String :=
  configured.filter fun val => val ≠ ""

/-- A security integration of which only the audience list has changed, to a
list with an empty string in the middle. -/
def audienceGapData : ResourceData :=
  { id := "SEC1"
    old := fieldsOf [("name", .str "SEC1"), ("enabled", .bool true),
      ("type", .str "EXTERNAL_OAUTH"), ("external_oauth_audience_list", .list ["a"])]
    new := fieldsOf [("name", .str "SEC1"), ("enabled", .bool true),
      ("type", .str "EXTERNAL_OAUTH"), ("external_oauth_audience_list", .list ["a", "", "b"])] }

/-! ## Lemmas and theorems -/

theorem executedSince_append (log extra : List SQL) (r : Result) (h : r.log = log ++ extra) :
    executedSince log r = extra := by
  simp [executedSince, h]

theorem ResourceData.Set_Id (d : ResourceData) (key : String) (value : Value) :
    (d.Set key value).Id = d.Id := rfl

theorem ReadNotificationIntegration_log (d : ResourceData) (db : DB) (log : List SQL) :
    ∃ extra, (ReadNotificationIntegration d db log).log = log ++ extra ∧
      ∀ q ∈ extra, q.isQuery = true := by
  cases hs : db.ScanNotificationIntegration log (snowflake.NotificationIntegration d.Id).Show with
  | error err =>
    simp only [ReadNotificationIntegration, hs]
    exact ⟨[_], rfl, by simp [Builder.Show, SQL.isQuery]⟩
  | ok s =>
    by_cases hc : s.Category.String = "NOTIFICATION"
    · refine ⟨[.showStmt (snowflake.NotificationIntegration d.Id),
        .describeStmt (snowflake.NotificationIntegration d.Id)], ?_, by simp [SQL.isQuery]⟩
      simp only [ReadNotificationIntegration, hs, hc, ResourceData.Set_Id, ne_eq,
        not_true_eq_false, if_false]
      cases db.Query (log ++ [(snowflake.NotificationIntegration d.Id).Show])
          (snowflake.NotificationIntegration d.Id).Describe <;>
        simp [Builder.Show, Builder.Describe]
    · simp only [ReadNotificationIntegration, hs]
      simp only [ne_eq, hc, not_false_eq_true, if_true]
      exact ⟨[_], rfl, by simp [Builder.Show, SQL.isQuery]⟩

theorem UpdateNotificationIntegration_run_log (d : ResourceData) (db : DB) (log : List SQL)
    (r : Bool) (stmt : SettingBuilder) :
    ∃ extra, (UpdateNotificationIntegration.run d db log r stmt).log =
        log ++ ((if r = true then [SQL.statement stmt] else []) ++ extra) ∧
      ∀ q ∈ extra, q.isQuery = true := by
  unfold UpdateNotificationIntegration.run
  cases r with
  | false => simpa using ReadNotificationIntegration_log d db log
  | true =>
    simp only [if_true]
    split
    · exact ⟨[], by simp [SettingBuilder.Statement], by simp⟩
    · obtain ⟨extra, h1, h2⟩ := ReadNotificationIntegration_log d db (log ++ [stmt.Statement])
      exact ⟨extra, by simpa [SettingBuilder.Statement] using h1, h2⟩

theorem UpdateNotificationIntegration_unchanged_provider (d : ResourceData) (db : DB)
    (log : List SQL) (hp : d.HasChange "notification_provider" = false) :
    UpdateNotificationIntegration d db log =
      UpdateNotificationIntegration.run d db log
        (d.HasChange "comment" || d.HasChange "enabled" ||
          d.HasChange "azure_storage_queue_primary_uri" || d.HasChange "azure_tenant_id")
        ⟨.alter, snowflake.NotificationIntegration d.Id, changedNotificationProps d⟩ := by
  unfold UpdateNotificationIntegration changedNotificationProps
  cases h1 : d.HasChange "comment" <;> cases h2 : d.HasChange "enabled" <;>
    cases h3 : d.HasChange "azure_storage_queue_primary_uri" <;>
    cases h4 : d.HasChange "azure_tenant_id" <;>
    simp [hp, Builder.Alter, SettingBuilder.SetString, SettingBuilder.SetBool]

theorem ite_pair (c r : Bool) (s s2 : SettingBuilder) :
    (if c = true then (true, s2) else (r, s)) = (c || r, if c = true then s2 else s) := by
  cases c <;> rfl

theorem SetString_ite (c : Bool) (s : SettingBuilder) (k v : String) :
    (if c = true then s.SetString k v else s) =
      ⟨s.kind, s.entity, s.props ++ (if c = true then [⟨k, .str v⟩] else [])⟩ := by
  cases c <;> simp [SettingBuilder.SetString]

theorem SetBool_ite (c : Bool) (s : SettingBuilder) (k : String) (v : Bool) :
    (if c = true then s.SetBool k v else s) =
      ⟨s.kind, s.entity, s.props ++ (if c = true then [⟨k, .bool v⟩] else [])⟩ := by
  cases c <;> simp [SettingBuilder.SetBool]

theorem UpdateSecurityIntegration_unchanged_type (e : List String → List String)
    (d : ResourceData) (db : DB) (log : List SQL) (ht : d.HasChange "type" = false) :
    UpdateSecurityIntegration e d db log =
      if d.HasChange "external_oauth_audience_list" = true then
        if (d.Get "external_oauth_audience_list").asList.length = 0 then
          match db.Exec log (SQL.text
            ("ALTER SECURITY INTEGRATION " ++ d.Id ++ " UNSET EXTERNAL_OAUTH_AUDIENCE_LIST")) with
          | some err =>
            ⟨some (.wrapf "error unsetting external_oauth_audience_list %w" err), d,
              log ++ [SQL.text
                ("ALTER SECURITY INTEGRATION " ++ d.Id ++ " UNSET EXTERNAL_OAUTH_AUDIENCE_LIST")]⟩
          | none => UpdateSecurityIntegration.anyRoleMode d db
              (log ++ [SQL.text
                ("ALTER SECURITY INTEGRATION " ++ d.Id ++ " UNSET EXTERNAL_OAUTH_AUDIENCE_LIST")])
              (changedSecurityRun d)
              ⟨.alter, snowflake.SecurityIntegration d.Id, changedSecurityProps d⟩
        else
          UpdateSecurityIntegration.anyRoleMode d db log true
            ⟨.alter, snowflake.SecurityIntegration d.Id, changedSecurityProps d ++
              [⟨"EXTERNAL_OAUTH_AUDIENCE_LIST",
                .strList (e (d.Get "external_oauth_audience_list").asList)⟩]⟩
      else
        UpdateSecurityIntegration.anyRoleMode d db log (changedSecurityRun d)
          ⟨.alter, snowflake.SecurityIntegration d.Id, changedSecurityProps d⟩ := by
  have hrun : (d.HasChange "external_oauth_rsa_public_key_2" ||
      (d.HasChange "external_oauth_rsa_public_key" ||
        (d.HasChange "external_oauth_jws_keys_url" ||
          (d.HasChange "external_oauth_snowflake_user_mapping_attribute" ||
            (d.HasChange "external_oauth_token_user_mapping_claim" ||
              (d.HasChange "external_oauth_issuer" ||
                (d.HasChange "external_oauth_type" ||
                  (d.HasChange "enabled" || d.HasChange "comment")))))))) =
      changedSecurityRun d := by
    unfold changedSecurityRun
    simp only [Bool.or_assoc, Bool.or_comm, Bool.or_left_comm]
  unfold UpdateSecurityIntegration changedSecurityProps
  simp only [ht, ite_pair, SetString_ite, SetBool_ite, Builder.Alter, SettingBuilder.SetStringList,
    Bool.false_eq_true, if_false, Bool.or_false, List.nil_append, List.append_assoc, hrun]

theorem UpdateSecurityIntegration_anyRoleMode_eq (d : ResourceData) (db : DB) (log : List SQL)
    (r : Bool) (stmt : SettingBuilder) :
    UpdateSecurityIntegration.anyRoleMode d db log r stmt =
      UpdateSecurityIntegration.run d db log (d.HasChange "external_oauth_any_role_mode" || r)
        ⟨stmt.kind, stmt.entity, stmt.props ++
          (if d.HasChange "external_oauth_any_role_mode" = true then
            [⟨"EXTERNAL_OAUTH_ANY_ROLE_MODE",
              .str (d.Get "external_oauth_any_role_mode").asString⟩] else [])⟩ := by
  unfold UpdateSecurityIntegration.anyRoleMode
  simp only [ite_pair, SetString_ite]

theorem ReadSecurityIntegration_log (d : ResourceData) (db : DB) (log : List SQL) :
    ∃ extra, (ReadSecurityIntegration d db log).log = log ++ extra ∧
      ∀ q ∈ extra, q.isQuery = true := by
  cases hs : db.ScanSecurityIntegration log (snowflake.SecurityIntegration d.Id).Show with
  | error err =>
    simp only [ReadSecurityIntegration, hs]
    exact ⟨[_], rfl, by simp [Builder.Show, SQL.isQuery]⟩
  | ok s =>
    by_cases hc : s.Category.String = "SECURITY"
    · refine ⟨[.showStmt (snowflake.SecurityIntegration d.Id),
        .describeStmt (snowflake.SecurityIntegration d.Id)], ?_, by simp [SQL.isQuery]⟩
      simp only [ReadSecurityIntegration, hs, hc, ResourceData.Set_Id, ne_eq,
        not_true_eq_false, if_false]
      cases db.Query (log ++ [(snowflake.SecurityIntegration d.Id).Show])
          (snowflake.SecurityIntegration d.Id).Describe <;>
        simp [Builder.Show, Builder.Describe]
    · simp only [ReadSecurityIntegration, hs]
      simp only [ne_eq, hc, not_false_eq_true, if_true]
      exact ⟨[_], rfl, by simp [Builder.Show, SQL.isQuery]⟩

theorem UpdateSecurityIntegration_run_log (d : ResourceData) (db : DB) (log : List SQL)
    (r : Bool) (stmt : SettingBuilder) :
    ∃ extra, (UpdateSecurityIntegration.run d db log r stmt).log =
        log ++ ((if r = true then [SQL.statement stmt] else []) ++ extra) ∧
      ∀ q ∈ extra, q.isQuery = true := by
  unfold UpdateSecurityIntegration.run
  cases r with
  | false => simpa using ReadSecurityIntegration_log d db log
  | true =>
    simp only [if_true]
    split
    · exact ⟨[], by simp [SettingBuilder.Statement], by simp⟩
    · obtain ⟨extra, h1, h2⟩ := ReadSecurityIntegration_log d db (log ++ [stmt.Statement])
      exact ⟨extra, by simpa [SettingBuilder.Statement] using h1, h2⟩

theorem changedSecurityProps_key (d : ResourceData) (p : Property)
    (hp : p ∈ changedSecurityProps d) : p.key ≠ "EXTERNAL_OAUTH_AUDIENCE_LIST" := by
  simp only [changedSecurityProps, List.mem_append, List.mem_ite_nil_right,
    List.mem_singleton] at hp
  casesm* _ ∨ _ <;> rename_i h <;> rw [h.2] <;> dsimp only <;> decide

theorem UpdateSecurityIntegration_empty_audience_log (e : List String → List String)
    (d : ResourceData) (db : DB) (log : List SQL) (ht : d.HasChange "type" = false)
    (ha : d.HasChange "external_oauth_audience_list" = true)
    (hl : (d.Get "external_oauth_audience_list").asList = []) :
    ∃ extra, (∀ q ∈ extra, q.isQuery = true) ∧
      ((UpdateSecurityIntegration e d db log).log = log ++ [unsetAudienceList d] ∨
        (UpdateSecurityIntegration e d db log).log = log ++ ([unsetAudienceList d] ++
          ((if (d.HasChange "external_oauth_any_role_mode" || changedSecurityRun d) = true then
            [SQL.statement ⟨.alter, snowflake.SecurityIntegration d.Id,
              changedSecurityProps d ++ changedAnyRoleMode d⟩] else []) ++ extra))) := by
  rw [UpdateSecurityIntegration_unchanged_type e d db log ht]
  simp only [ha, hl, if_true, List.length_nil]
  cases db.Exec log (SQL.text
      ("ALTER SECURITY INTEGRATION " ++ d.Id ++ " UNSET EXTERNAL_OAUTH_AUDIENCE_LIST")) with
  | some err => exact ⟨[], by simp, Or.inl rfl⟩
  | none =>
    simp only [UpdateSecurityIntegration_anyRoleMode_eq]
    obtain ⟨extra, h1, h2⟩ := UpdateSecurityIntegration_run_log d db
      (log ++ [unsetAudienceList d]) (d.HasChange "external_oauth_any_role_mode" || changedSecurityRun d)
      ⟨.alter, snowflake.SecurityIntegration d.Id, changedSecurityProps d ++ changedAnyRoleMode d⟩
    refine ⟨extra, h2, Or.inr ?_⟩
    rw [← List.append_assoc]
    exact h1

theorem UpdateSecurityIntegration_nonempty_audience_log (e : List String → List String)
    (d : ResourceData) (db : DB) (log : List SQL) (ht : d.HasChange "type" = false)
    (ha : d.HasChange "external_oauth_audience_list" = true)
    (hl : (d.Get "external_oauth_audience_list").asList ≠ []) :
    ∃ extra, (∀ q ∈ extra, q.isQuery = true) ∧
      (UpdateSecurityIntegration e d db log).log = log ++
        ([SQL.statement ⟨.alter, snowflake.SecurityIntegration d.Id,
            changedSecurityProps d ++
              ([⟨"EXTERNAL_OAUTH_AUDIENCE_LIST",
                .strList (e (d.Get "external_oauth_audience_list").asList)⟩] ++
              changedAnyRoleMode d)⟩] ++ extra) := by
  rw [UpdateSecurityIntegration_unchanged_type e d db log ht]
  have hlen : ¬ (d.Get "external_oauth_audience_list").asList.length = 0 := by
    simpa [List.length_eq_zero] using hl
  simp only [ha, hlen, if_true, if_false, UpdateSecurityIntegration_anyRoleMode_eq]
  obtain ⟨extra, h1, h2⟩ := UpdateSecurityIntegration_run_log d db log
    (d.HasChange "external_oauth_any_role_mode" || true)
    ⟨.alter, snowflake.SecurityIntegration d.Id, (changedSecurityProps d ++
      [⟨"EXTERNAL_OAUTH_AUDIENCE_LIST",
        .strList (e (d.Get "external_oauth_audience_list").asList)⟩]) ++ changedAnyRoleMode d⟩
  refine ⟨extra, h2, ?_⟩
  simpa [changedAnyRoleMode] using h1

theorem UpdateNotificationIntegration_run_executed (d : ResourceData) (db : DB) (log : List SQL)
    (r : Bool) (stmt : SettingBuilder) (b : SettingBuilder) :
    SQL.statement b ∈ executedSince log (UpdateNotificationIntegration.run d db log r stmt) ↔
      (r = true ∧ b = stmt) := by
  obtain ⟨extra, h1, h2⟩ := UpdateNotificationIntegration_run_log d db log r stmt
  rw [executedSince_append log _ _ h1]
  have hx : SQL.statement b ∉ extra := fun hm => by simpa [SQL.isQuery] using h2 _ hm
  cases r <;> simp [hx]

theorem setNotificationProviderSettings_kind (data : ResourceData) (stmt : SettingBuilder) :
    (setNotificationProviderSettings data stmt).2.kind = stmt.kind := by
  unfold setNotificationProviderSettings
  simp only [SettingBuilder.SetString]
  split_ifs <;> rfl

theorem UpdateNotificationIntegration_changed_provider (d : ResourceData) (db : DB)
    (log : List SQL) (hp : d.HasChange "notification_provider" = true) :
    UpdateNotificationIntegration d db log =
      match setNotificationProviderSettings d ⟨.alter, snowflake.NotificationIntegration d.Id,
        (if d.HasChange "comment" then [⟨"COMMENT", .str (d.Get "comment").asString⟩] else []) ++
        (if d.HasChange "enabled" then [⟨"ENABLED", .bool (d.Get "enabled").asBool⟩] else [])⟩ with
      | (some err, _) => ⟨some err, d, log⟩
      | (none, stmt) => UpdateNotificationIntegration.run d db log true stmt := by
  unfold UpdateNotificationIntegration
  cases h1 : d.HasChange "comment" <;> cases h2 : d.HasChange "enabled" <;>
    simp [hp, Builder.Alter, SettingBuilder.SetString, SettingBuilder.SetBool]

/-- Claim C3. Provided the provider helper does not fail, `UpdateNotificationIntegration`
executes an ALTER statement if and only if at least one of `comment`, `enabled`,
`notification_provider`, `azure_storage_queue_primary_uri`, `azure_tenant_id` has
changed; when none of them has changed the update is the read-back and nothing else. -/
theorem UpdateNotificationIntegration_executes_iff (d : ResourceData) (db : DB) (log : List SQL)
    (h : d.HasChange "notification_provider" = true →
      ∀ stmt, (setNotificationProviderSettings d stmt).1 = none) :
    ((∃ b, b.kind = .alter ∧
        SQL.statement b ∈ executedSince log (UpdateNotificationIntegration d db log)) ↔
      (d.HasChange "comment" = true ∨ d.HasChange "enabled" = true ∨
        d.HasChange "notification_provider" = true ∨
        d.HasChange "azure_storage_queue_primary_uri" = true ∨
        d.HasChange "azure_tenant_id" = true)) ∧
    (¬(d.HasChange "comment" = true ∨ d.HasChange "enabled" = true ∨
        d.HasChange "notification_provider" = true ∨
        d.HasChange "azure_storage_queue_primary_uri" = true ∨
        d.HasChange "azure_tenant_id" = true) →
      UpdateNotificationIntegration d db log = ReadNotificationIntegration d db log) := by
  cases hp : d.HasChange "notification_provider" with
  | false =>
    rw [UpdateNotificationIntegration_unchanged_provider d db log hp]
    refine ⟨?_, ?_⟩
    · simp only [UpdateNotificationIntegration_run_executed]
      constructor
      · rintro ⟨b, -, hr, -⟩
        simp only [Bool.or_eq_true] at hr
        tauto
      · intro hc
        refine ⟨_, rfl, ?_, rfl⟩
        simp only [Bool.or_eq_true]
        simp only [Bool.false_eq_true, false_or] at hc
        tauto
    · intro hn
      simp only [not_or, Bool.not_eq_true] at hn
      simp [hn.1, hn.2.1, hn.2.2.2.1, hn.2.2.2.2, UpdateNotificationIntegration.run]
  | true =>
    rw [UpdateNotificationIntegration_changed_provider d db log hp]
    refine ⟨?_, by simp⟩
    simp only [or_true, true_or, iff_true]
    generalize hst : (⟨.alter, snowflake.NotificationIntegration d.Id,
        (if d.HasChange "comment" then [⟨"COMMENT", .str (d.Get "comment").asString⟩] else []) ++
        (if d.HasChange "enabled" then [⟨"ENABLED", .bool (d.Get "enabled").asBool⟩] else [])⟩ :
        SettingBuilder) = st
    have hk := setNotificationProviderSettings_kind d st
    have he := h hp st
    rcases hh : setNotificationProviderSettings d st with ⟨e, st2⟩
    rw [hh] at hk he
    simp only at he hk
    subst he
    refine ⟨st2, ?_, ?_⟩
    · rw [hk, ← hst]
    · simp [UpdateNotificationIntegration_run_executed]

/-- Claim C4. When `notification_provider` has not changed, the only statement
`UpdateNotificationIntegration` can execute is the ALTER whose properties are
`changedNotificationProps`, it is executed as soon as that list is not empty, and
a property is in the list exactly when it is the property of a changed field among
`comment`, `enabled`, `azure_storage_queue_primary_uri` and `azure_tenant_id`
carrying the current value of the field (for the comment also when it is empty). -/
theorem UpdateNotificationIntegration_writes_changed (d : ResourceData) (db : DB)
    (log : List SQL) (hp : d.HasChange "notification_provider" = false) :
    (∀ b, SQL.statement b ∈ executedSince log (UpdateNotificationIntegration d db log) →
      b = ⟨.alter, snowflake.NotificationIntegration d.Id, changedNotificationProps d⟩) ∧
    (changedNotificationProps d ≠ [] →
      SQL.statement ⟨.alter, snowflake.NotificationIntegration d.Id, changedNotificationProps d⟩ ∈
        executedSince log (UpdateNotificationIntegration d db log)) ∧
    (∀ p, p ∈ changedNotificationProps d ↔
      ((d.HasChange "comment" = true ∧ p = ⟨"COMMENT", .str (d.Get "comment").asString⟩) ∨
       (d.HasChange "enabled" = true ∧ p = ⟨"ENABLED", .bool (d.Get "enabled").asBool⟩) ∨
       (d.HasChange "azure_storage_queue_primary_uri" = true ∧
          p = ⟨"AZURE_STORAGE_QUEUE_PRIMARY_URI",
            .str (d.Get "azure_storage_queue_primary_uri").asString⟩) ∨
       (d.HasChange "azure_tenant_id" = true ∧
          p = ⟨"AZURE_TENANT_ID", .str (d.Get "azure_tenant_id").asString⟩))) := by
  rw [UpdateNotificationIntegration_unchanged_provider d db log hp]
  refine ⟨?_, ?_, ?_⟩
  · intro b hb
    exact ((UpdateNotificationIntegration_run_executed d db log _ _ b).1 hb).2
  · intro hne
    refine (UpdateNotificationIntegration_run_executed d db log _ _ _).2 ⟨?_, rfl⟩
    revert hne
    unfold changedNotificationProps
    cases d.HasChange "comment" <;> cases d.HasChange "enabled" <;>
      cases d.HasChange "azure_storage_queue_primary_uri" <;>
      cases d.HasChange "azure_tenant_id" <;> simp
  · intro p
    unfold changedNotificationProps
    cases d.HasChange "comment" <;> cases d.HasChange "enabled" <;>
      cases d.HasChange "azure_storage_queue_primary_uri" <;>
      cases d.HasChange "azure_tenant_id" <;> simp

theorem setNotificationProviderSettings_err_indep (data : ResourceData)
    (s1 s2 : SettingBuilder) :
    (setNotificationProviderSettings data s1).1 = (setNotificationProviderSettings data s2).1 := by
  unfold setNotificationProviderSettings
  dsimp only
  split_ifs <;> rfl

theorem setNotificationProviderSettings_entity (data : ResourceData) (stmt : SettingBuilder) :
    (setNotificationProviderSettings data stmt).2.entity = stmt.entity := by
  unfold setNotificationProviderSettings
  simp only [SettingBuilder.SetString]
  split_ifs <;> rfl

theorem setSecurityProviderSettings_err_indep (e : List String → List String)
    (data : ResourceData) (s1 s2 : SettingBuilder) :
    (setSecurityProviderSettings e data s1).1 = (setSecurityProviderSettings e data s2).1 := by
  simp only [setSecurityProviderSettings, apply_ite Prod.fst]

theorem setSecurityProviderSettings_kind (e : List String → List String)
    (data : ResourceData) (stmt : SettingBuilder) :
    (setSecurityProviderSettings e data stmt).2.kind = stmt.kind ∧
      (setSecurityProviderSettings e data stmt).2.entity = stmt.entity := by
  simp only [setSecurityProviderSettings, apply_ite Prod.snd, apply_ite SettingBuilder.kind,
    apply_ite SettingBuilder.entity, SettingBuilder.SetString, SettingBuilder.SetStringList,
    ite_self, and_self]

theorem ReadNotificationIntegration_describeRows_Id (d : ResourceData)
    (rows : List (Except GoError DescribeRow)) :
    (ReadNotificationIntegration.describeRows d rows).2.Id = d.Id := by
  induction rows generalizing d with
  | nil => rfl
  | cons r rows ih =>
    cases r with
    | error err => rfl
    | ok r =>
      simp only [ReadNotificationIntegration.describeRows]
      rw [ih]
      unfold ReadNotificationIntegration.describeRow
      split_ifs <;> rfl

theorem ReadNotificationIntegration_Id (d : ResourceData) (db : DB) (log : List SQL) :
    (ReadNotificationIntegration d db log).d.Id = d.Id := by
  unfold ReadNotificationIntegration
  dsimp only
  split
  · rfl
  · split_ifs
    · rfl
    · split
      · rfl
      · exact ReadNotificationIntegration_describeRows_Id _ _

theorem ResourceData.Set_Get_ne (d : ResourceData) (k key : String) (v : Value)
    (h : key ≠ k) : (d.Set k v).Get key = d.Get key := by
  simp [ResourceData.Set, ResourceData.Get, h]

theorem ResourceData.Set_Get_eq (d : ResourceData) (k : String) (v : Value) :
    (d.Set k v).Get k = v := by
  simp [ResourceData.Set, ResourceData.Get]

theorem ResourceData.Get_ite (c : Prop) [Decidable c] (a b : ResourceData) (key : String) :
    (if c then a else b).Get key = if c then a.Get key else b.Get key := by
  split_ifs <;> rfl

theorem ReadNotificationIntegration_describeRow_keeps (d : ResourceData) (r : DescribeRow)
    (key : String) (hk : key = "name" ∨ key = "created_on" ∨ key = "enabled") :
    (ReadNotificationIntegration.describeRow d r).Get key = d.Get key := by
  have hne : ∀ k ∈ ["notification_provider", "azure_storage_queue_primary_uri",
      "azure_tenant_id"], key ≠ k := by
    rcases hk with rfl | rfl | rfl <;> decide
  simp only [List.forall_mem_cons, List.not_mem_nil, false_implies, implies_true,
    and_true] at hne
  obtain ⟨n1, n2, n3⟩ := hne
  simp only [ReadNotificationIntegration.describeRow, ResourceData.Get_ite,
    ResourceData.Set_Get_ne _ _ _ _ n1, ResourceData.Set_Get_ne _ _ _ _ n2,
    ResourceData.Set_Get_ne _ _ _ _ n3, ite_self]

theorem ReadNotificationIntegration_describeRows_keeps (d : ResourceData)
    (rows : List (Except GoError DescribeRow))
    (key : String) (hk : key = "name" ∨ key = "created_on" ∨ key = "enabled") :
    (ReadNotificationIntegration.describeRows d rows).2.Get key = d.Get key := by
  induction rows generalizing d with
  | nil => rfl
  | cons r rows ih =>
    cases r with
    | error err => rfl
    | ok r =>
      simp only [ReadNotificationIntegration.describeRows]
      rw [ih, ReadNotificationIntegration_describeRow_keeps d r key hk]

theorem ReadSecurityIntegration_describeRow_keeps (d : ResourceData) (r : DescribeRow)
    (key : String) (hk : key = "name" ∨ key = "created_on" ∨ key = "enabled") :
    (ReadSecurityIntegration.describeRow d r).Get key = d.Get key := by
  have hne : ∀ k ∈ ["external_oauth_issuer", "external_oauth_token_user_mapping_claim",
      "external_oauth_snowflake_user_mapping_attribute", "external_oauth_jws_keys_url",
      "external_oauth_rsa_public_key", "external_oauth_rsa_public_key_2",
      "external_oauth_audience_list", "external_oauth_any_role_mode"], key ≠ k := by
    rcases hk with rfl | rfl | rfl <;> decide
  simp only [List.forall_mem_cons, List.not_mem_nil, false_implies, implies_true,
    and_true] at hne
  obtain ⟨n1, n2, n3, n4, n5, n6, n7, n8⟩ := hne
  simp only [ReadSecurityIntegration.describeRow, ResourceData.Get_ite,
    ResourceData.Set_Get_ne _ _ _ _ n1, ResourceData.Set_Get_ne _ _ _ _ n2,
    ResourceData.Set_Get_ne _ _ _ _ n3, ResourceData.Set_Get_ne _ _ _ _ n4,
    ResourceData.Set_Get_ne _ _ _ _ n5, ResourceData.Set_Get_ne _ _ _ _ n6,
    ResourceData.Set_Get_ne _ _ _ _ n7, ResourceData.Set_Get_ne _ _ _ _ n8, ite_self]

theorem ReadSecurityIntegration_describeRows_keeps (d : ResourceData)
    (rows : List (Except GoError DescribeRow))
    (key : String) (hk : key = "name" ∨ key = "created_on" ∨ key = "enabled") :
    (ReadSecurityIntegration.describeRows d rows).2.Get key = d.Get key := by
  induction rows generalizing d with
  | nil => rfl
  | cons r rows ih =>
    cases r with
    | error err => rfl
    | ok r =>
      simp only [ReadSecurityIntegration.describeRows]
      rw [ih, ReadSecurityIntegration_describeRow_keeps d r key hk]

theorem ReadNotificationIntegration_category (d : ResourceData) (db : DB) (log : List SQL)
    (s : notificationIntegration)
    (hs : db.ScanNotificationIntegration log (snowflake.NotificationIntegration d.Id).Show = .ok s) :
    (s.Category.String ≠ "NOTIFICATION" →
      ReadNotificationIntegration d db log =
        ⟨some (.errorf ("Expected " ++ d.Id ++ " to be a NOTIFICATION integration, got " ++
            s.Category.String)), d, log ++ [(snowflake.NotificationIntegration d.Id).Show]⟩) ∧
    (s.Category.String = "NOTIFICATION" →
      (ReadNotificationIntegration d db log).d.Get "name" = .str s.Name.String ∧
      (ReadNotificationIntegration d db log).d.Get "created_on" = .str s.CreatedOn.String ∧
      (ReadNotificationIntegration d db log).d.Get "enabled" = .bool s.Enabled.Bool) := by
  refine ⟨fun hc => ?_, fun hc => ?_⟩
  · simp only [ReadNotificationIntegration, hs, ne_eq, hc, not_false_eq_true, if_true]
  · simp only [ReadNotificationIntegration, hs, hc, ne_eq, not_true_eq_false, if_false]
    have h3 : ∀ d0 : ResourceData,
        (((d0.Set "name" (.str s.Name.String)).Set "created_on" (.str s.CreatedOn.String)).Set
          "enabled" (.bool s.Enabled.Bool)).Get "name" = .str s.Name.String ∧
        (((d0.Set "name" (.str s.Name.String)).Set "created_on" (.str s.CreatedOn.String)).Set
          "enabled" (.bool s.Enabled.Bool)).Get "created_on" = .str s.CreatedOn.String ∧
        (((d0.Set "name" (.str s.Name.String)).Set "created_on" (.str s.CreatedOn.String)).Set
          "enabled" (.bool s.Enabled.Bool)).Get "enabled" = .bool s.Enabled.Bool := by
      intro d0
      refine ⟨?_, ?_, ?_⟩
      · rw [ResourceData.Set_Get_ne _ _ _ _ (by decide), ResourceData.Set_Get_ne _ _ _ _ (by decide),
          ResourceData.Set_Get_eq]
      · rw [ResourceData.Set_Get_ne _ _ _ _ (by decide), ResourceData.Set_Get_eq]
      · rw [ResourceData.Set_Get_eq]
    split
    · exact h3 d
    · simp only [ReadNotificationIntegration_describeRows_keeps, true_or, or_true]
      exact h3 d

theorem ReadSecurityIntegration_category (d : ResourceData) (db : DB) (log : List SQL)
    (s : securityIntegration)
    (hs : db.ScanSecurityIntegration log (snowflake.SecurityIntegration d.Id).Show = .ok s) :
    (s.Category.String ≠ "SECURITY" →
      ReadSecurityIntegration d db log =
        ⟨some (.errorf ("Expected " ++ d.Id ++ " to be a SECURITY integration, got " ++
            s.Category.String)), d, log ++ [(snowflake.SecurityIntegration d.Id).Show]⟩) ∧
    (s.Category.String = "SECURITY" →
      (ReadSecurityIntegration d db log).d.Get "name" = .str s.Name.String ∧
      (ReadSecurityIntegration d db log).d.Get "created_on" = .str s.CreatedOn.String ∧
      (ReadSecurityIntegration d db log).d.Get "enabled" = .bool s.Enabled.Bool) := by
  refine ⟨fun hc => ?_, fun hc => ?_⟩
  · simp only [ReadSecurityIntegration, hs, ne_eq, hc, not_false_eq_true, if_true]
  · simp only [ReadSecurityIntegration, hs, hc, ne_eq, not_true_eq_false, if_false]
    have h3 : ∀ d0 : ResourceData,
        (((d0.Set "name" (.str s.Name.String)).Set "created_on" (.str s.CreatedOn.String)).Set
          "enabled" (.bool s.Enabled.Bool)).Get "name" = .str s.Name.String ∧
        (((d0.Set "name" (.str s.Name.String)).Set "created_on" (.str s.CreatedOn.String)).Set
          "enabled" (.bool s.Enabled.Bool)).Get "created_on" = .str s.CreatedOn.String ∧
        (((d0.Set "name" (.str s.Name.String)).Set "created_on" (.str s.CreatedOn.String)).Set
          "enabled" (.bool s.Enabled.Bool)).Get "enabled" = .bool s.Enabled.Bool := by
      intro d0
      refine ⟨?_, ?_, ?_⟩
      · rw [ResourceData.Set_Get_ne _ _ _ _ (by decide), ResourceData.Set_Get_ne _ _ _ _ (by decide),
          ResourceData.Set_Get_eq]
      · rw [ResourceData.Set_Get_ne _ _ _ _ (by decide), ResourceData.Set_Get_eq]
      · rw [ResourceData.Set_Get_eq]
    split
    · exact h3 d
    · simp only [ReadSecurityIntegration_describeRows_keeps, true_or, or_true]
      exact h3 d

theorem ReadNotificationIntegration_describeRow_ignored (d : ResourceData) (r : DescribeRow)
    (hk : r.k = "ENABLED" ∨ r.k ∉ ["NOTIFICATION_PROVIDER", "AZURE_STORAGE_QUEUE_PRIMARY_URI",
      "AZURE_TENANT_ID"]) :
    ReadNotificationIntegration.describeRow d r = d := by
  unfold ReadNotificationIntegration.describeRow
  rcases hk with hk | hk
  · simp [hk]
  · simp only [List.mem_cons, List.mem_singleton, List.not_mem_nil, or_false, not_or] at hk
    simp [hk.1, hk.2.1, hk.2.2]

theorem ReadSecurityIntegration_describeRow_ignored (d : ResourceData) (r : DescribeRow)
    (hk : r.k = "ENABLED" ∨ r.k ∉ ["EXTERNAL_OAUTH_ISSUER",
      "EXTERNAL_OAUTH_TOKEN_USER_MAPPING_CLAIM", "EXTERNAL_OAUTH_SNOWFLAKE_USER_MAPPING_ATTRIBUTE",
      "EXTERNAL_OAUTH_JWS_KEYS_URL", "EXTERNAL_OAUTH_RSA_PUBLIC_KEY",
      "EXTERNAL_OAUTH_RSA_PUBLIC_KEY_2", "EXTERNAL_OAUTH_AUDIENCE_LIST",
      "EXTERNAL_OAUTH_ANY_ROLE_MODE"]) :
    ReadSecurityIntegration.describeRow d r = d := by
  unfold ReadSecurityIntegration.describeRow
  rcases hk with hk | hk
  · simp [hk]
  · simp only [List.mem_cons, List.mem_singleton, List.not_mem_nil, or_false, not_or] at hk
    simp [hk.1, hk.2.1, hk.2.2.1, hk.2.2.2.1, hk.2.2.2.2.1, hk.2.2.2.2.2.1, hk.2.2.2.2.2.2.1,
      hk.2.2.2.2.2.2.2]

theorem CreateNotificationIntegration_atomic (d : ResourceData) (db : DB) (log : List SQL) :
    CreateIsAtomic (fun stmt => (setNotificationProviderSettings d stmt).1)
      (snowflake.NotificationIntegration (d.Get "name").asString)
      "error creating notification integration: %w" d db log
      (CreateNotificationIntegration d db log) := by
  unfold CreateIsAtomic
  obtain ⟨st0, hk0, he0, key⟩ : ∃ st0 : SettingBuilder, st0.kind = .create ∧
      st0.entity = snowflake.NotificationIntegration (d.Get "name").asString ∧
      CreateNotificationIntegration d db log =
        match setNotificationProviderSettings d st0 with
        | (some err, _) => ⟨some err, d, log⟩
        | (none, stmt) =>
          match db.Exec log stmt.Statement with
          | some err =>
            ⟨some (.wrapf "error creating notification integration: %w" err), d,
              log ++ [stmt.Statement]⟩
          | none =>
            ReadNotificationIntegration (d.SetId (d.Get "name").asString) db
              (log ++ [stmt.Statement]) := by
    refine ⟨_, ?_, ?_, rfl⟩
    · simp only [apply_ite SettingBuilder.kind, SettingBuilder.SetString, SettingBuilder.SetBool,
        Builder.Create, ite_self]
    · simp only [apply_ite SettingBuilder.entity, SettingBuilder.SetString,
        SettingBuilder.SetBool, Builder.Create, ite_self]
  have hk := setNotificationProviderSettings_kind d st0
  have he := setNotificationProviderSettings_entity d st0
  rcases hh : setNotificationProviderSettings d st0 with ⟨_ | err0, stmt⟩
  · -- the helper succeeded
    rw [hh] at hk he
    simp only at hk he
    have hread := ReadNotificationIntegration_log (d.SetId (d.Get "name").asString) db
      (log ++ [stmt.Statement])
    have hid := ReadNotificationIntegration_Id (d.SetId (d.Get "name").asString) db
      (log ++ [stmt.Statement])
    rw [key, hh]
    dsimp only
    refine ⟨fun err s hs => ?_, fun _ => ⟨stmt, hk.trans hk0, he.trans he0, ?_, ?_⟩, ?_⟩
    · have := setNotificationProviderSettings_err_indep d s st0
      rw [hs, hh] at this
      cases this
    · intro err hex
      simp only [SettingBuilder.Statement, hex]
    · intro hex
      simp only [SettingBuilder.Statement, hex] at hread hid ⊢
      obtain ⟨extra, h1, -⟩ := hread
      refine ⟨hid, ?_⟩
      rw [executedSince_append log ([SQL.statement stmt] ++ extra) _ (by simpa using h1)]
      rfl
    · cases hex : db.Exec log (SQL.statement stmt) with
      | some err =>
        simp only [SettingBuilder.Statement, hex]
        intro hne
        exact absurd rfl hne
      | none =>
        simp only [SettingBuilder.Statement, hex] at hread hid ⊢
        intro _
        obtain ⟨extra, h1, -⟩ := hread
        refine ⟨hid, stmt, hk.trans hk0, hex, ?_⟩
        rw [executedSince_append log ([SQL.statement stmt] ++ extra) _ (by simpa using h1)]
        rfl
  · -- the helper failed
    rw [key, hh]
    dsimp only
    refine ⟨fun err s hs => ?_, fun hall => ?_, fun hne => absurd rfl hne⟩
    · have := setNotificationProviderSettings_err_indep d s st0
      rw [hs, hh] at this
      simp only [Option.some.injEq] at this
      rw [this]
    · have := hall st0
      rw [hh] at this
      cases this

theorem CreateSecurityIntegration_atomic (e : List String → List String)
    (d : ResourceData) (db : DB) (log : List SQL) :
    CreateIsAtomic (fun stmt => (setSecurityProviderSettings e d stmt).1)
      (snowflake.SecurityIntegration (d.Get "name").asString)
      "error creating security integration: %w" d db log
      (CreateSecurityIntegration e d db log) := by
  unfold CreateIsAtomic
  obtain ⟨st0, hk0, he0, key⟩ : ∃ st0 : SettingBuilder, st0.kind = .create ∧
      st0.entity = snowflake.SecurityIntegration (d.Get "name").asString ∧
      CreateSecurityIntegration e d db log =
        match setSecurityProviderSettings e d st0 with
        | (some err, _) => ⟨some err, d, log⟩
        | (none, stmt) =>
          match db.Exec log stmt.Statement with
          | some err =>
            ⟨some (.wrapf "error creating security integration: %w" err), d,
              log ++ [stmt.Statement]⟩
          | none => ⟨none, d.SetId (d.Get "name").asString, log ++ [stmt.Statement]⟩ := by
    refine ⟨_, ?_, ?_, rfl⟩
    · simp only [apply_ite SettingBuilder.kind, SettingBuilder.SetString, SettingBuilder.SetBool,
        Builder.Create, ite_self]
    · simp only [apply_ite SettingBuilder.entity, SettingBuilder.SetString,
        SettingBuilder.SetBool, Builder.Create, ite_self]
  have hk := (setSecurityProviderSettings_kind e d st0).1
  have he := (setSecurityProviderSettings_kind e d st0).2
  rcases hh : setSecurityProviderSettings e d st0 with ⟨_ | err0, stmt⟩
  · -- the helper succeeded
    rw [hh] at hk he
    simp only at hk he
    rw [key, hh]
    dsimp only
    refine ⟨fun err s hs => ?_, fun _ => ⟨stmt, hk.trans hk0, he.trans he0, ?_, ?_⟩, ?_⟩
    · have := setSecurityProviderSettings_err_indep e d s st0
      rw [hs, hh] at this
      cases this
    · intro err hex
      simp only [SettingBuilder.Statement, hex]
    · intro hex
      simp only [SettingBuilder.Statement, hex]
      exact ⟨rfl, by simp [executedSince]⟩
    · cases hex : db.Exec log (SQL.statement stmt) with
      | some err =>
        simp only [SettingBuilder.Statement, hex]
        intro hne
        exact absurd rfl hne
      | none =>
        simp only [SettingBuilder.Statement, hex]
        intro _
        exact ⟨rfl, stmt, hk.trans hk0, hex, by simp [executedSince]⟩
  · -- the helper failed
    rw [key, hh]
    dsimp only
    refine ⟨fun err s hs => ?_, fun hall => ?_, fun hne => absurd rfl hne⟩
    · have := setSecurityProviderSettings_err_indep e d s st0
      rw [hs, hh] at this
      simp only [Option.some.injEq] at this
      rw [this]
    · have := hall st0
      rw [hh] at this
      cases this

/-- Claim C8. `CreateNotificationIntegration` and `CreateSecurityIntegration` are
atomic with respect to validation and execution (`CreateIsAtomic`): an error of
the provider-settings helper is returned with no SQL executed and the id as it
was; a failing CREATE statement gives the wrapped SQL error with the id as it was;
the id is set, to the configured name, only once the CREATE statement has been
executed without error. -/
theorem Create_atomic (expandStringList : List String → List String)
    (d : ResourceData) (db : DB) (log : List SQL) :
    CreateIsAtomic (fun stmt => (setNotificationProviderSettings d stmt).1)
      (snowflake.NotificationIntegration (d.Get "name").asString)
      "error creating notification integration: %w" d db log
      (CreateNotificationIntegration d db log) ∧
    CreateIsAtomic (fun stmt => (setSecurityProviderSettings expandStringList d stmt).1)
      (snowflake.SecurityIntegration (d.Get "name").asString)
      "error creating security integration: %w" d db log
      (CreateSecurityIntegration expandStringList d db log) :=
  ⟨CreateNotificationIntegration_atomic d db log,
    CreateSecurityIntegration_atomic expandStringList d db log⟩

/-- The update of the audience list for any list helper: with `type` unchanged
and `external_oauth_audience_list` changed, an empty new list gives the UNSET
text first, no property `EXTERNAL_OAUTH_AUDIENCE_LIST` in an executed SET
statement and no SET statement when nothing else has changed; a new list that is
not empty gives the SET statement with the helper's image of the new list, and
no UNSET text. -/
theorem UpdateSecurityIntegration_audience_list_of (expandStringList : List String → List String)
    (d : ResourceData) (db : DB) (log : List SQL) (ht : d.HasChange "type" = false)
    (ha : d.HasChange "external_oauth_audience_list" = true) :
    ((d.Get "external_oauth_audience_list").asList = [] →
      (executedSince log (UpdateSecurityIntegration expandStringList d db log)).head? =
        some (SQL.text
          ("ALTER SECURITY INTEGRATION " ++ d.Id ++ " UNSET EXTERNAL_OAUTH_AUDIENCE_LIST")) ∧
      (∀ b, SQL.statement b ∈
          executedSince log (UpdateSecurityIntegration expandStringList d db log) →
        ∀ p ∈ b.props, p.key ≠ "EXTERNAL_OAUTH_AUDIENCE_LIST") ∧
      (changedSecurityRun d = false ∧ d.HasChange "external_oauth_any_role_mode" = false →
        ∀ b, SQL.statement b ∉
          executedSince log (UpdateSecurityIntegration expandStringList d db log))) ∧
    ((d.Get "external_oauth_audience_list").asList ≠ [] →
      SQL.statement ⟨.alter, snowflake.SecurityIntegration d.Id,
          changedSecurityProps d ++
            ([⟨"EXTERNAL_OAUTH_AUDIENCE_LIST",
              .strList (expandStringList (d.Get "external_oauth_audience_list").asList)⟩] ++
            changedAnyRoleMode d)⟩ ∈
        executedSince log (UpdateSecurityIntegration expandStringList d db log) ∧
      (∀ s, SQL.text s ∉
        executedSince log (UpdateSecurityIntegration expandStringList d db log))) := by
  refine ⟨fun hl => ?_, fun hl => ?_⟩
  · obtain ⟨extra, hq, hlog⟩ :=
      UpdateSecurityIntegration_empty_audience_log expandStringList d db log ht ha hl
    have hx : ∀ b, SQL.statement b ∉ extra := fun b hm => by simpa [SQL.isQuery] using hq _ hm
    rcases hlog with hlog | hlog
    · rw [executedSince_append log _ _ hlog]
      simp [unsetAudienceList]
    · rw [executedSince_append log _ _ hlog]
      refine ⟨by simp [unsetAudienceList], ?_, ?_⟩
      · intro b hb p hp
        simp only [unsetAudienceList, List.singleton_append, List.mem_cons, List.mem_append,
          hx b, or_false, false_or] at hb
        split_ifs at hb with hr
        · simp only [List.mem_singleton, SQL.statement.injEq, false_or] at hb
          subst hb
          rcases List.mem_append.1 hp with hp | hp
          · exact changedSecurityProps_key d p hp
          · simp only [changedAnyRoleMode, List.mem_ite_nil_right, List.mem_singleton] at hp
            rw [hp.2]
            dsimp only
            decide
        · simp at hb
      · rintro ⟨h1, h2⟩ b
        simp [unsetAudienceList, h1, h2, hx b]
  · obtain ⟨extra, hq, hlog⟩ :=
      UpdateSecurityIntegration_nonempty_audience_log expandStringList d db log ht ha hl
    rw [executedSince_append log _ _ hlog]
    refine ⟨by simp, ?_⟩
    intro s hs
    simp only [List.singleton_append, List.mem_cons, reduceCtorEq, false_or] at hs
    simpa [SQL.isQuery] using hq _ hs

/-- Claim C7, as amended. For a configuration of type `EXTERNAL_OAUTH` (or
`external_oauth`) whose `external_oauth_type`, `external_oauth_issuer`,
`external_oauth_token_user_mapping_claim` and
`external_oauth_snowflake_user_mapping_attribute` are set,
`setSecurityProviderSettings` succeeds if and only if `external_oauth_jws_keys_url`,
`external_oauth_audience_list` and `external_oauth_any_role_mode` are set as well. -/
theorem setSecurityProviderSettings_external_oauth_iff
    (expandStringList : List String → List String) (data : ResourceData) (stmt : SettingBuilder)
    (htype : (data.Get "type").asString = "EXTERNAL_OAUTH" ∨
      (data.Get "type").asString = "external_oauth")
    (h1 : (data.GetOk "external_oauth_type").2 = true)
    (h2 : (data.GetOk "external_oauth_issuer").2 = true)
    (h3 : (data.GetOk "external_oauth_token_user_mapping_claim").2 = true)
    (h4 : (data.GetOk "external_oauth_snowflake_user_mapping_attribute").2 = true) :
    (setSecurityProviderSettings expandStringList data stmt).1 = none ↔
      ((data.GetOk "external_oauth_jws_keys_url").2 = true ∧
        (data.GetOk "external_oauth_audience_list").2 = true ∧
        (data.GetOk "external_oauth_any_role_mode").2 = true) := by
  have ht : (data.Get "type").asString = "external_oauth" ∨
      (data.Get "type").asString = "EXTERNAL_OAUTH" := htype.symm
  unfold setSecurityProviderSettings
  simp only [ht, h1, h2, h3, h4, if_true, Bool.not_true, Bool.false_eq_true, if_false]
  cases h5 : (data.GetOk "external_oauth_jws_keys_url").2 <;>
    cases h6 : (data.GetOk "external_oauth_audience_list").2 <;>
    cases h7 : (data.GetOk "external_oauth_any_role_mode").2 <;> simp

/-- Claim C1. `setNotificationProviderSettings` returns an error exactly when the
provider is none of the strings `azure_storage_queue`, `AZURE_STORAGE_QUEUE`,
`GCP_PUBSUB`, or is one of the two Azure spellings while `GetOk` reports
`azure_storage_queue_primary_uri` or `azure_tenant_id` as not set; otherwise it
returns nil. `GetOk` reports a field as not set when its value is the zero value
of its type, for a string the empty string. -/
theorem setNotificationProviderSettings_error_iff (data : ResourceData) (stmt : SettingBuilder) :
    ((setNotificationProviderSettings data stmt).1 ≠ none ↔
      ((data.Get "notification_provider").asString ∉
          ["azure_storage_queue", "AZURE_STORAGE_QUEUE", "GCP_PUBSUB"] ∨
        ((data.Get "notification_provider").asString ∈
            ["azure_storage_queue", "AZURE_STORAGE_QUEUE"] ∧
          ((data.GetOk "azure_storage_queue_primary_uri").2 = false ∨
            (data.GetOk "azure_tenant_id").2 = false)))) ∧
    (∀ key, (data.GetOk key).2 = false ↔ (data.Get key).isZero = true) ∧
    (∀ s, (Value.str s).isZero = true ↔ s = "") := by
  refine ⟨?_, ?_, ?_⟩
  · unfold setNotificationProviderSettings
    simp only [List.mem_cons, List.mem_singleton, List.not_mem_nil, or_false]
    by_cases hp : (data.Get "notification_provider").asString = "azure_storage_queue" ∨
        (data.Get "notification_provider").asString = "AZURE_STORAGE_QUEUE"
    · rw [if_pos hp]
      cases h1 : (data.GetOk "azure_storage_queue_primary_uri").2 <;>
        cases h2 : (data.GetOk "azure_tenant_id").2 <;>
        rcases hp with hp | hp <;> simp [hp]
    · rw [if_neg hp]
      by_cases hg : (data.Get "notification_provider").asString = "GCP_PUBSUB"
      · rw [if_pos hg]
        simp [hg]
      · rw [if_neg hg]
        simp only [not_or] at hp
        simp [hp.1, hp.2, hg]
  · intro key
    simp [ResourceData.GetOk, ResourceData.Get]
  · intro s
    simp [Value.isZero]

/-- Claim C2. When `setNotificationProviderSettings` succeeds, either the provider
is one of the two Azure spellings and the call added exactly
`NOTIFICATION_PROVIDER`, `AZURE_STORAGE_QUEUE_PRIMARY_URI` and `AZURE_TENANT_ID`
with the configured values, or the provider is `GCP_PUBSUB` and the call added
exactly `NOTIFICATION_PROVIDER`, whatever the Azure fields hold. -/
theorem setNotificationProviderSettings_props (data : ResourceData) (stmt : SettingBuilder)
    (h : (setNotificationProviderSettings data stmt).1 = none) :
    (((data.Get "notification_provider").asString = "azure_storage_queue" ∨
        (data.Get "notification_provider").asString = "AZURE_STORAGE_QUEUE") ∧
      (setNotificationProviderSettings data stmt).2 =
        { stmt with props := stmt.props ++
          [⟨"NOTIFICATION_PROVIDER", .str (data.Get "notification_provider").asString⟩,
           ⟨"AZURE_STORAGE_QUEUE_PRIMARY_URI",
              .str (data.Get "azure_storage_queue_primary_uri").asString⟩,
           ⟨"AZURE_TENANT_ID", .str (data.Get "azure_tenant_id").asString⟩] }) ∨
    ((data.Get "notification_provider").asString = "GCP_PUBSUB" ∧
      (setNotificationProviderSettings data stmt).2 =
        { stmt with props := stmt.props ++
          [⟨"NOTIFICATION_PROVIDER", .str "GCP_PUBSUB"⟩] }) := by
  unfold setNotificationProviderSettings at h ⊢
  by_cases hp : (data.Get "notification_provider").asString = "azure_storage_queue" ∨
      (data.Get "notification_provider").asString = "AZURE_STORAGE_QUEUE"
  · left
    refine ⟨hp, ?_⟩
    rw [if_pos hp] at h ⊢
    cases h1 : (data.GetOk "azure_storage_queue_primary_uri").2 <;>
      cases h2 : (data.GetOk "azure_tenant_id").2 <;>
      simp [h1, h2] at h ⊢
    simp [SettingBuilder.SetString, ResourceData.GetOk, ResourceData.Get]
  · right
    rw [if_neg hp] at h ⊢
    by_cases hg : (data.Get "notification_provider").asString = "GCP_PUBSUB"
    · refine ⟨hg, ?_⟩
      rw [if_pos hg]
      simp [SettingBuilder.SetString, hg]
    · rw [if_neg hg] at h
      simp at h

/-- Witness for C2: the Azure example configuration passes the helper, which
adds the three properties to an empty create statement. -/
theorem setNotificationProviderSettings_props_witness :
    (setNotificationProviderSettings azureData (snowflake.NotificationIntegration "INT1").Create).1
        = none ∧
      (setNotificationProviderSettings azureData
          (snowflake.NotificationIntegration "INT1").Create).2.props =
        [⟨"NOTIFICATION_PROVIDER", .str "AZURE_STORAGE_QUEUE"⟩,
         ⟨"AZURE_STORAGE_QUEUE_PRIMARY_URI", .str "https://acct.queue.core.windows.net/q"⟩,
         ⟨"AZURE_TENANT_ID", .str "t0"⟩] :=
  ⟨by decide, by
    rcases setNotificationProviderSettings_props azureData
      (snowflake.NotificationIntegration "INT1").Create (by decide) with ⟨_, h⟩ | ⟨hg, _⟩
    · rw [h]
      decide
    · exact absurd hg (by decide)⟩

/-- Witness for C3: moving the example integration from GCP to Azure passes the
helper and executes an ALTER statement. -/
theorem UpdateNotificationIntegration_executes_iff_witness :
    azureData.HasChange "notification_provider" = true ∧
    (∀ stmt, (setNotificationProviderSettings azureData stmt).1 = none) ∧
    ∃ b, b.kind = .alter ∧
      SQL.statement b ∈ executedSince [] (UpdateNotificationIntegration azureData exampleDB []) :=
  have hall : ∀ stmt, (setNotificationProviderSettings azureData stmt).1 = none := fun stmt =>
    (setNotificationProviderSettings_err_indep azureData stmt
      (snowflake.NotificationIntegration "INT1").Create).trans (by decide)
  ⟨by decide, hall,
    (UpdateNotificationIntegration_executes_iff azureData exampleDB [] (fun _ => hall)).1.2
      (Or.inr (Or.inr (Or.inl (by decide))))⟩

/-- Witness for C4: emptying the comment of the example integration executes an
ALTER statement whose only property is the empty `COMMENT`. -/
theorem UpdateNotificationIntegration_writes_changed_witness :
    commentData.HasChange "notification_provider" = false ∧
    SQL.statement ⟨.alter, snowflake.NotificationIntegration "INT1", [⟨"COMMENT", .str ""⟩]⟩ ∈
      executedSince [] (UpdateNotificationIntegration commentData exampleDB []) :=
  ⟨by decide,
    (UpdateNotificationIntegration_writes_changed commentData exampleDB [] (by decide)).2.1
      (by decide)⟩

/-- Claim C5, at the input on which the code departs from it. The provider of
`gcpData` is `GCP_PUBSUB` and has not changed, its `azure_tenant_id` has, and
`UpdateNotificationIntegration` executes an ALTER statement with the property
`AZURE_TENANT_ID`, on every database. -/
theorem UpdateNotificationIntegration_gcp_writes_azure (db : DB) (log : List SQL) :
    (gcpData.Get "notification_provider").asString = "GCP_PUBSUB" ∧
    gcpData.HasChange "notification_provider" = false ∧
    SQL.statement ⟨.alter, snowflake.NotificationIntegration "INT1",
        [⟨"AZURE_TENANT_ID", .str "t1"⟩]⟩ ∈
      executedSince log (UpdateNotificationIntegration gcpData db log) := by
  refine ⟨by decide, by decide, ?_⟩
  rw [UpdateNotificationIntegration_unchanged_provider gcpData db log (by decide)]
  exact (UpdateNotificationIntegration_run_executed gcpData db log _ _ _).2
    ⟨by decide, by decide⟩

/-- The create path for C5: with the provider `GCP_PUBSUB` the statement that
`CreateNotificationIntegration` executes has neither Azure property. -/
theorem CreateNotificationIntegration_gcp_no_azure (d : ResourceData) (db : DB) (log : List SQL)
    (hg : (d.Get "notification_provider").asString = "GCP_PUBSUB") (b : SettingBuilder)
    (hb : SQL.statement b ∈ executedSince log (CreateNotificationIntegration d db log))
    (p : Property) (hp : p ∈ b.props) :
    p.key ≠ "AZURE_STORAGE_QUEUE_PRIMARY_URI" ∧ p.key ≠ "AZURE_TENANT_ID" := by
  have hne1 : ¬ ("GCP_PUBSUB" = "azure_storage_queue" ∨ "GCP_PUBSUB" = "AZURE_STORAGE_QUEUE") := by
    decide
  have key : ∃ props : List Property, (∀ q ∈ props, q.key ∈ ["TYPE", "ENABLED", "COMMENT",
        "NOTIFICATION_PROVIDER"]) ∧
      CreateNotificationIntegration d db log =
        match db.Exec log (.statement ⟨.create,
            snowflake.NotificationIntegration (d.Get "name").asString, props⟩) with
        | some err =>
          ⟨some (.wrapf "error creating notification integration: %w" err), d,
            log ++ [.statement ⟨.create,
              snowflake.NotificationIntegration (d.Get "name").asString, props⟩]⟩
        | none =>
          ReadNotificationIntegration (d.SetId (d.Get "name").asString) db
            (log ++ [.statement ⟨.create,
              snowflake.NotificationIntegration (d.Get "name").asString, props⟩]) := by
    by_cases hc : (d.GetOk "comment").2 = true
    · refine ⟨[⟨"TYPE", .str (d.Get "type").asString⟩, ⟨"ENABLED", .bool (d.Get "enabled").asBool⟩,
        ⟨"COMMENT", .str (d.GetOk "comment").1.asString⟩,
        ⟨"NOTIFICATION_PROVIDER", .str "GCP_PUBSUB"⟩], by simp, ?_⟩
      simp [CreateNotificationIntegration, setNotificationProviderSettings, hg, hc, hne1,
        Builder.Create, SettingBuilder.SetString, SettingBuilder.SetBool,
        SettingBuilder.Statement]
    · refine ⟨[⟨"TYPE", .str (d.Get "type").asString⟩, ⟨"ENABLED", .bool (d.Get "enabled").asBool⟩,
        ⟨"NOTIFICATION_PROVIDER", .str "GCP_PUBSUB"⟩], by simp, ?_⟩
      simp [CreateNotificationIntegration, setNotificationProviderSettings, hg, hc, hne1,
        Builder.Create, SettingBuilder.SetString, SettingBuilder.SetBool,
        SettingBuilder.Statement]
  obtain ⟨props, hprops, hC⟩ := key
  have hmem : b.props = props := by
    rw [hC] at hb
    cases hex : db.Exec log (.statement ⟨.create,
        snowflake.NotificationIntegration (d.Get "name").asString, props⟩) with
    | some err =>
      rw [hex] at hb
      simp only [executedSince, List.drop_left, List.mem_singleton, SQL.statement.injEq] at hb
      rw [hb]
    | none =>
      rw [hex] at hb
      obtain ⟨extra, h1, h2⟩ := ReadNotificationIntegration_log
        (d.SetId (d.Get "name").asString) db (log ++ [.statement ⟨.create,
          snowflake.NotificationIntegration (d.Get "name").asString, props⟩])
      simp only at hb
      rw [executedSince_append log _ _ (by rw [h1, List.append_assoc])] at hb
      rcases List.mem_append.1 hb with hb | hb
      · simp only [List.mem_singleton, SQL.statement.injEq] at hb
        rw [hb]
      · have := h2 _ hb
        simp [SQL.isQuery] at this
  rw [hmem] at hp
  have hk := hprops p hp
  simp only [List.mem_cons, List.mem_singleton, List.not_mem_nil, or_false] at hk
  rcases hk with hk | hk | hk | hk <;> rw [hk] <;> decide

/-- Counterexample to C7 as stated: the example configuration has type
`EXTERNAL_OAUTH` and the four required fields, and no
`external_oauth_jws_keys_url`; `setSecurityProviderSettings` returns an error. -/
theorem setSecurityProviderSettings_requires_jws_keys_url :
    (oauthData.Get "type").asString = "EXTERNAL_OAUTH" ∧
    (oauthData.Get "external_oauth_type").asString ≠ "" ∧
    (oauthData.Get "external_oauth_issuer").asString ≠ "" ∧
    (oauthData.Get "external_oauth_token_user_mapping_claim").asString ≠ "" ∧
    (oauthData.Get "external_oauth_snowflake_user_mapping_attribute").asString ≠ "" ∧
    (setSecurityProviderSettings id oauthData (snowflake.SecurityIntegration "SEC1").Create).1 =
      some (.errorf "If you use external_oauth you must specify an external_oauth_jws_keys_url") := by
  decide

/-- Witness for C7 as amended: on the example configuration, which lacks
`external_oauth_jws_keys_url`, the helper does not succeed. -/
theorem setSecurityProviderSettings_external_oauth_iff_witness :
    ((oauthData.Get "type").asString = "EXTERNAL_OAUTH" ∨
      (oauthData.Get "type").asString = "external_oauth") ∧
    (oauthData.GetOk "external_oauth_jws_keys_url").2 = false ∧
    (setSecurityProviderSettings id oauthData (snowflake.SecurityIntegration "SEC1").Create).1 ≠
      none :=
  ⟨by decide, by decide, fun h =>
    absurd ((setSecurityProviderSettings_external_oauth_iff id oauthData
      (snowflake.SecurityIntegration "SEC1").Create (by decide) (by decide) (by decide)
      (by decide) (by decide)).1 h).1 (by decide)⟩

/-- Claim C9, at the input on which the code departs from it. The schema
validator accepts the provider `gcp_pubsub`, the two Azure fields are set, and
`setNotificationProviderSettings` returns the `Unexpected provider` error. -/
theorem setNotificationProviderSettings_rejects_validated :
    notificationProviderValidate "gcp_pubsub" = true ∧
    (lowerGcpData.Get "notification_provider").asString = "gcp_pubsub" ∧
    (lowerGcpData.GetOk "azure_storage_queue_primary_uri").2 = true ∧
    (lowerGcpData.GetOk "azure_tenant_id").2 = true ∧
    (setNotificationProviderSettings lowerGcpData
        (snowflake.NotificationIntegration "INT1").Create).1 =
      some (.errorf "Unexpected provider::  gcp_pubsub") := by
  decide

/-- Claim C10. When the SHOW row scans, `ReadNotificationIntegration` (resp.
`ReadSecurityIntegration`) with a category other than `NOTIFICATION` (resp.
`SECURITY`) returns the category error, leaves the resource data as they were
and issues the SHOW query alone; with the right category the fields `name`,
`created_on` and `enabled` of the result are those of the SHOW row. A DESCRIBE
row whose key is `ENABLED` or none of the keys of the `switch` leaves the
resource data as they are. -/
theorem Read_category (d : ResourceData) (db : DB) (log : List SQL)
    (sn : notificationIntegration) (ss : securityIntegration)
    (hn : db.ScanNotificationIntegration log (snowflake.NotificationIntegration d.Id).Show = .ok sn)
    (hs : db.ScanSecurityIntegration log (snowflake.SecurityIntegration d.Id).Show = .ok ss) :
    ((sn.Category.String ≠ "NOTIFICATION" →
        ReadNotificationIntegration d db log =
          ⟨some (.errorf ("Expected " ++ d.Id ++ " to be a NOTIFICATION integration, got " ++
            sn.Category.String)), d, log ++ [(snowflake.NotificationIntegration d.Id).Show]⟩) ∧
      (sn.Category.String = "NOTIFICATION" →
        (ReadNotificationIntegration d db log).d.Get "name" = .str sn.Name.String ∧
        (ReadNotificationIntegration d db log).d.Get "created_on" = .str sn.CreatedOn.String ∧
        (ReadNotificationIntegration d db log).d.Get "enabled" = .bool sn.Enabled.Bool) ∧
      (∀ d0 r, (r.k = "ENABLED" ∨ r.k ∉ ["NOTIFICATION_PROVIDER",
          "AZURE_STORAGE_QUEUE_PRIMARY_URI", "AZURE_TENANT_ID"]) →
        ReadNotificationIntegration.describeRow d0 r = d0)) ∧
    ((ss.Category.String ≠ "SECURITY" →
        ReadSecurityIntegration d db log =
          ⟨some (.errorf ("Expected " ++ d.Id ++ " to be a SECURITY integration, got " ++
            ss.Category.String)), d, log ++ [(snowflake.SecurityIntegration d.Id).Show]⟩) ∧
      (ss.Category.String = "SECURITY" →
        (ReadSecurityIntegration d db log).d.Get "name" = .str ss.Name.String ∧
        (ReadSecurityIntegration d db log).d.Get "created_on" = .str ss.CreatedOn.String ∧
        (ReadSecurityIntegration d db log).d.Get "enabled" = .bool ss.Enabled.Bool) ∧
      (∀ d0 r, (r.k = "ENABLED" ∨ r.k ∉ ["EXTERNAL_OAUTH_ISSUER",
          "EXTERNAL_OAUTH_TOKEN_USER_MAPPING_CLAIM",
          "EXTERNAL_OAUTH_SNOWFLAKE_USER_MAPPING_ATTRIBUTE", "EXTERNAL_OAUTH_JWS_KEYS_URL",
          "EXTERNAL_OAUTH_RSA_PUBLIC_KEY", "EXTERNAL_OAUTH_RSA_PUBLIC_KEY_2",
          "EXTERNAL_OAUTH_AUDIENCE_LIST", "EXTERNAL_OAUTH_ANY_ROLE_MODE"]) →
        ReadSecurityIntegration.describeRow d0 r = d0)) :=
  ⟨⟨(ReadNotificationIntegration_category d db log sn hn).1,
      (ReadNotificationIntegration_category d db log sn hn).2,
      fun d0 r h => ReadNotificationIntegration_describeRow_ignored d0 r h⟩,
    ⟨(ReadSecurityIntegration_category d db log ss hs).1,
      (ReadSecurityIntegration_category d db log ss hs).2,
      fun d0 r h => ReadSecurityIntegration_describeRow_ignored d0 r h⟩⟩

/-- Witness for C10: on the database whose SHOW rows have the category
`STORAGE`, both reads of the example data end with the category error, the data
untouched and the SHOW query alone in the log. -/
theorem Read_category_witness :
    storageDB.ScanNotificationIntegration [] (snowflake.NotificationIntegration gcpData.Id).Show =
      .ok ⟨⟨true, "INT1"⟩, ⟨true, "STORAGE"⟩, ⟨true, "EXTERNAL_STAGE"⟩,
        ⟨true, "2021-03-01 10:00:00"⟩, ⟨true, true⟩⟩ ∧
    storageDB.ScanSecurityIntegration [] (snowflake.SecurityIntegration gcpData.Id).Show =
      .ok ⟨⟨true, "SEC1"⟩, ⟨true, "STORAGE"⟩, ⟨true, "EXTERNAL_STAGE"⟩,
        ⟨true, "2021-03-01 10:00:00"⟩, ⟨true, true⟩⟩ ∧
    ReadNotificationIntegration gcpData storageDB [] =
      ⟨some (.errorf "Expected INT1 to be a NOTIFICATION integration, got STORAGE"), gcpData,
        [.showStmt (snowflake.NotificationIntegration "INT1")]⟩ ∧
    ReadSecurityIntegration gcpData storageDB [] =
      ⟨some (.errorf "Expected INT1 to be a SECURITY integration, got STORAGE"), gcpData,
        [.showStmt (snowflake.SecurityIntegration "INT1")]⟩ :=
  ⟨rfl, rfl,
    (Read_category gcpData storageDB [] _ _ rfl rfl).1.1 (by decide),
    (Read_category gcpData storageDB [] _ _ rfl rfl).2.1 (by decide)⟩

theorem stringsSplit_ne_nil (s : String) (sep : Char) : stringsSplit s sep ≠ [] := by
  unfold stringsSplit List.splitOn
  intro h
  exact List.splitOnP_ne_nil _ _ (List.map_eq_nil_iff.1 h)

theorem stringsJoin_stringsSplit (s : String) (sep : Char) :
    stringsJoin (stringsSplit s sep) sep = s := by
  unfold stringsJoin stringsSplit
  have hmap : ∀ ls : List (List Char), (ls.map String.mk).map String.data = ls := by
    intro ls
    induction ls with
    | nil => rfl
    | cons a t ih => simp only [List.map_cons, ih]
  rw [hmap, List.intercalate_splitOn]

theorem stringsSplit_stringsJoin (l : List String) (sep : Char) (hl : l ≠ [])
    (hs : ∀ s ∈ l, sep ∉ s.data) : stringsSplit (stringsJoin l sep) sep = l := by
  unfold stringsJoin stringsSplit
  have hx : ∀ cs ∈ l.map String.data, sep ∉ cs := by
    intro cs hcs
    obtain ⟨s, hsl, rfl⟩ := List.mem_map.1 hcs
    exact hs s hsl
  have hne : l.map String.data ≠ [] := fun h => hl (List.map_eq_nil_iff.1 h)
  have hid : ∀ t : List String, t.map (String.mk ∘ String.data) = t := by
    intro t
    induction t with
    | nil => rfl
    | cons a t ih => simp only [List.map_cons, ih, Function.comp_apply]
  rw [List.splitOn_intercalate _ sep hx hne, List.map_map]
  exact hid l

theorem stringsJoin_ne_empty (l : List String) (sep : Char) (hl : l ≠ []) (h1 : l ≠ [""]) :
    stringsJoin l sep ≠ "" := by
  unfold stringsJoin
  intro h
  have hd : [sep].intercalate (l.map String.data) = [] := congrArg String.data h
  match l, hl, h1 with
  | [a], _, h1 =>
    apply h1
    have : a.data = [] := by simpa [List.intercalate] using hd
    have ha : a = "" := String.ext this
    rw [ha]
  | a :: b :: t, _, _ =>
    simp [List.intercalate] at hd

theorem ReadSecurityIntegration_describeRow_audience (d : ResourceData) (r : DescribeRow)
    (hk : r.k = "EXTERNAL_OAUTH_AUDIENCE_LIST") :
    ReadSecurityIntegration.describeRow d r =
      if r.v ≠ "" then d.Set "external_oauth_audience_list" (.list (stringsSplit r.v ','))
      else d := by
  simp [ReadSecurityIntegration.describeRow, hk]

/-- Claim C11, as amended. For a DESCRIBE row `EXTERNAL_OAUTH_AUDIENCE_LIST` with
value `val`: an empty `val` leaves the resource data as they are; any other
`val` sets `external_oauth_audience_list` to the comma-split of `val`, which is
not the empty list and whose elements joined with a comma give `val` back; so
the row never stores an empty list. For every non-empty list of comma-free
strings other than the list of one empty string, the comma-joined value is not
empty, its split is the list, and reading it stores the list. -/
theorem ReadSecurityIntegration_audience_row (d : ResourceData) (r : DescribeRow)
    (hk : r.k = "EXTERNAL_OAUTH_AUDIENCE_LIST") :
    (r.v = "" → ReadSecurityIntegration.describeRow d r = d) ∧
    (r.v ≠ "" → ReadSecurityIntegration.describeRow d r =
      d.Set "external_oauth_audience_list" (.list (stringsSplit r.v ','))) ∧
    (stringsSplit r.v ',' ≠ [] ∧ stringsJoin (stringsSplit r.v ',') ',' = r.v) ∧
    ((ReadSecurityIntegration.describeRow d r).Get "external_oauth_audience_list" =
        d.Get "external_oauth_audience_list" ∨
      ∃ l, l ≠ [] ∧
        (ReadSecurityIntegration.describeRow d r).Get "external_oauth_audience_list" = .list l) ∧
    (∀ l : List String, l ≠ [] → l ≠ [""] → (∀ s ∈ l, ',' ∉ s.data) →
      stringsJoin l ',' ≠ "" ∧ stringsSplit (stringsJoin l ',') ',' = l ∧
      (r.v = stringsJoin l ',' →
        (ReadSecurityIntegration.describeRow d r).Get "external_oauth_audience_list" =
          .list l)) := by
  have hrow := ReadSecurityIntegration_describeRow_audience d r hk
  refine ⟨fun hv => ?_, fun hv => ?_,
    ⟨stringsSplit_ne_nil _ _, stringsJoin_stringsSplit _ _⟩, ?_, fun l hl h1 hs => ?_⟩
  · rw [hrow, if_neg (not_not.2 hv)]
  · rw [hrow, if_pos hv]
  · by_cases hv : r.v = ""
    · left
      rw [hrow, if_neg (not_not.2 hv)]
    · right
      refine ⟨stringsSplit r.v ',', stringsSplit_ne_nil _ _, ?_⟩
      rw [hrow, if_pos hv, ResourceData.Set_Get_eq]
  · have hne := stringsJoin_ne_empty l ',' hl h1
    refine ⟨hne, stringsSplit_stringsJoin l ',' hl hs, fun hv => ?_⟩
    rw [hrow, if_pos (hv ▸ hne), ResourceData.Set_Get_eq, hv,
      stringsSplit_stringsJoin l ',' hl hs]

/-- Counterexample to C11 as stated: the list of one empty string is a non-empty
list of comma-free strings, its comma-joined value is the empty string, and
reading that value leaves the audience list of the example data as it was. -/
theorem ReadSecurityIntegration_audience_row_empty_string :
    ([""] : List String) ≠ [] ∧ (∀ s ∈ ([""] : List String), ',' ∉ s.data) ∧
    stringsJoin [""] ',' = "" ∧
    (ReadSecurityIntegration.describeRow oauthFullData
        ⟨"EXTERNAL_OAUTH_AUDIENCE_LIST", "List", stringsJoin [""] ',', ""⟩).Get
      "external_oauth_audience_list" = .list ["a", "b"] ∧
    (ReadSecurityIntegration.describeRow oauthFullData
        ⟨"EXTERNAL_OAUTH_AUDIENCE_LIST", "List", stringsJoin [""] ',', ""⟩).Get
      "external_oauth_audience_list" ≠ .list [""] := by
  decide

/-- Witness for C11 as amended: reading the row with value `x,y` stores the list
of `x` and `y`. -/
theorem ReadSecurityIntegration_audience_row_witness :
    (⟨"EXTERNAL_OAUTH_AUDIENCE_LIST", "List", "x,y", ""⟩ : DescribeRow).k =
      "EXTERNAL_OAUTH_AUDIENCE_LIST" ∧
    (ReadSecurityIntegration.describeRow oauthFullData
        ⟨"EXTERNAL_OAUTH_AUDIENCE_LIST", "List", "x,y", ""⟩).Get
      "external_oauth_audience_list" = .list ["x", "y"] :=
  ⟨rfl, ((ReadSecurityIntegration_audience_row oauthFullData
      ⟨"EXTERNAL_OAUTH_AUDIENCE_LIST", "List", "x,y", ""⟩ rfl).2.2.2.2
        ["x", "y"] (by decide) (by decide) (by decide)).2.2 (by decide)⟩

/-- Claim C12, at the input on which the code departs from it. On the example
configuration `setSecurityProviderSettings` succeeds and passes the audience list
to the builder under the key `external_oauth_audience_list`, with no property
`EXTERNAL_OAUTH_AUDIENCE_LIST`, while `UpdateSecurityIntegration` on the same
data, of which only the audience list has changed, executes the ALTER statement
with the key `EXTERNAL_OAUTH_AUDIENCE_LIST`. -/
theorem setSecurityProviderSettings_audience_key_lowercase :
    (setSecurityProviderSettings id oauthFullData
      (snowflake.SecurityIntegration "SEC1").Create).1 = none ∧
    ⟨"external_oauth_audience_list", .strList ["a", "b"]⟩ ∈
      (setSecurityProviderSettings id oauthFullData
        (snowflake.SecurityIntegration "SEC1").Create).2.props ∧
    (∀ p ∈ (setSecurityProviderSettings id oauthFullData
        (snowflake.SecurityIntegration "SEC1").Create).2.props,
      p.key ≠ "EXTERNAL_OAUTH_AUDIENCE_LIST") ∧
    oauthFullData.HasChange "type" = false ∧
    executedSince [] (UpdateSecurityIntegration id oauthFullData exampleDB []) =
      [.statement ⟨.alter, snowflake.SecurityIntegration "SEC1",
          [⟨"EXTERNAL_OAUTH_AUDIENCE_LIST", .strList ["a", "b"]⟩]⟩,
        .showStmt (snowflake.SecurityIntegration "SEC1"),
        .describeStmt (snowflake.SecurityIntegration "SEC1")] := by
  decide

/-- The keys `setSecurityProviderSettings` passes to the builder for an external
OAuth configuration on which it succeeds: the upper-cased field names, except
for the audience list, whose key is in lower case. -/
theorem setSecurityProviderSettings_keys (e : List String → List String)
    (data : ResourceData) (stmt : SettingBuilder)
    (ht : (data.Get "type").asString = "external_oauth" ∨
      (data.Get "type").asString = "EXTERNAL_OAUTH")
    (h : (setSecurityProviderSettings e data stmt).1 = none) :
    (setSecurityProviderSettings e data stmt).2.props.map Property.key =
      stmt.props.map Property.key ++
        (["TYPE", "EXTERNAL_OAUTH_TYPE", "EXTERNAL_OAUTH_ISSUER",
          "EXTERNAL_OAUTH_TOKEN_USER_MAPPING_CLAIM",
          "EXTERNAL_OAUTH_SNOWFLAKE_USER_MAPPING_ATTRIBUTE", "EXTERNAL_OAUTH_JWS_KEYS_URL"] ++
        ((if (data.GetOk "external_oauth_rsa_public_key").2 = true then
            ["EXTERNAL_OAUTH_RSA_PUBLIC_KEY"] else []) ++
        ((if (data.GetOk "external_oauth_rsa_public_key_2").2 = true then
            ["EXTERNAL_OAUTH_RSA_PUBLIC_KEY_2"] else []) ++
        ["external_oauth_audience_list", "EXTERNAL_OAUTH_ANY_ROLE_MODE"]))) := by
  unfold setSecurityProviderSettings at h ⊢
  simp only [ht, if_true] at h ⊢
  cases h1 : (data.GetOk "external_oauth_type").2
  · simp [h1] at h
  cases h2 : (data.GetOk "external_oauth_issuer").2
  · simp [h1, h2] at h
  cases h3 : (data.GetOk "external_oauth_token_user_mapping_claim").2
  · simp [h1, h2, h3] at h
  cases h4 : (data.GetOk "external_oauth_snowflake_user_mapping_attribute").2
  · simp [h1, h2, h3, h4] at h
  cases h5 : (data.GetOk "external_oauth_jws_keys_url").2
  · simp [h1, h2, h3, h4, h5] at h
  cases h6 : (data.GetOk "external_oauth_audience_list").2
  · simp [h1, h2, h3, h4, h5, h6] at h
  cases h7 : (data.GetOk "external_oauth_any_role_mode").2
  · simp [h1, h2, h3, h4, h5, h6, h7] at h
  cases h8 : (data.GetOk "external_oauth_rsa_public_key").2 <;>
    cases h9 : (data.GetOk "external_oauth_rsa_public_key_2").2 <;>
    simp [h1, h2, h3, h4, h5, h6, h7, SettingBuilder.SetString, SettingBuilder.SetStringList]

/-- Claim C6, as amended. In `UpdateSecurityIntegration` with `type` unchanged
and `external_oauth_audience_list` changed: if the new list is empty, the first
statement executed is `ALTER SECURITY INTEGRATION <id> UNSET
EXTERNAL_OAUTH_AUDIENCE_LIST`, no executed SET statement has a property
`EXTERNAL_OAUTH_AUDIENCE_LIST`, and no SET statement is executed at all when no
other field has changed; if the new list is not empty, the SET statement
executed has the property `EXTERNAL_OAUTH_AUDIENCE_LIST` whose value is the new
elements other than the empty string, in order (all the new elements, in order,
when none of them is the empty string), and no UNSET text is executed. -/
theorem UpdateSecurityIntegration_audience_list (d : ResourceData) (db : DB) (log : List SQL)
    (ht : d.HasChange "type" = false)
    (ha : d.HasChange "external_oauth_audience_list" = true) :
    ((d.Get "external_oauth_audience_list").asList = [] →
      (executedSince log (UpdateSecurityIntegration expandStringList d db log)).head? =
        some (SQL.text
          ("ALTER SECURITY INTEGRATION " ++ d.Id ++ " UNSET EXTERNAL_OAUTH_AUDIENCE_LIST")) ∧
      (∀ b, SQL.statement b ∈
          executedSince log (UpdateSecurityIntegration expandStringList d db log) →
        ∀ p ∈ b.props, p.key ≠ "EXTERNAL_OAUTH_AUDIENCE_LIST") ∧
      (changedSecurityRun d = false ∧ d.HasChange "external_oauth_any_role_mode" = false →
        ∀ b, SQL.statement b ∉
          executedSince log (UpdateSecurityIntegration expandStringList d db log))) ∧
    ((d.Get "external_oauth_audience_list").asList ≠ [] →
      SQL.statement ⟨.alter, snowflake.SecurityIntegration d.Id,
          changedSecurityProps d ++
            ([⟨"EXTERNAL_OAUTH_AUDIENCE_LIST",
              .strList ((d.Get "external_oauth_audience_list").asList.filter
                fun val => val ≠ "")⟩] ++
            changedAnyRoleMode d)⟩ ∈
        executedSince log (UpdateSecurityIntegration expandStringList d db log) ∧
      (∀ b, SQL.statement b ∈
          executedSince log (UpdateSecurityIntegration expandStringList d db log) →
        ∀ p ∈ b.props, p.key = "EXTERNAL_OAUTH_AUDIENCE_LIST" →
          p.value = .strList ((d.Get "external_oauth_audience_list").asList.filter
            fun val => val ≠ "")) ∧
      ((∀ val ∈ (d.Get "external_oauth_audience_list").asList, val ≠ "") →
        (d.Get "external_oauth_audience_list").asList.filter (fun val => val ≠ "") =
          (d.Get "external_oauth_audience_list").asList) ∧
      (∀ s, SQL.text s ∉
        executedSince log (UpdateSecurityIntegration expandStringList d db log))) := by
  have hgen := UpdateSecurityIntegration_audience_list_of expandStringList d db log ht ha
  refine ⟨hgen.1, fun hl => ⟨(hgen.2 hl).1, ?_, ?_, (hgen.2 hl).2⟩⟩
  · obtain ⟨extra, hq, hlog⟩ :=
      UpdateSecurityIntegration_nonempty_audience_log expandStringList d db log ht ha hl
    intro b hb p hp hkey
    rw [executedSince_append log _ _ hlog] at hb
    rcases List.mem_append.1 hb with hb | hb
    · simp only [List.mem_singleton, SQL.statement.injEq] at hb
      subst hb
      simp only [List.mem_append, List.mem_singleton] at hp
      rcases hp with hp | hp | hp
      · exact absurd hkey (changedSecurityProps_key d p hp)
      · rw [hp]
        rfl
      · simp only [changedAnyRoleMode, List.mem_ite_nil_right, List.mem_singleton] at hp
        rw [hp.2] at hkey
        dsimp only at hkey
        exact absurd hkey (by decide)
    · have := hq _ hb
      simp [SQL.isQuery] at this
  · intro hall
    exact List.filter_eq_self.2 fun val hval => by simpa using hall val hval

/-- Witness for C6 as amended: emptying the audience list of one example
integration executes the UNSET statement first, and changing the audience list
of the other to `a, b` executes the SET statement with `a` and `b`. -/
theorem UpdateSecurityIntegration_audience_list_witness :
    audienceData.HasChange "type" = false ∧
    audienceData.HasChange "external_oauth_audience_list" = true ∧
    (executedSince [] (UpdateSecurityIntegration expandStringList audienceData exampleDB [])).head? =
      some (SQL.text "ALTER SECURITY INTEGRATION SEC1 UNSET EXTERNAL_OAUTH_AUDIENCE_LIST") ∧
    oauthFullData.HasChange "type" = false ∧
    oauthFullData.HasChange "external_oauth_audience_list" = true ∧
    SQL.statement ⟨.alter, snowflake.SecurityIntegration "SEC1",
        [⟨"EXTERNAL_OAUTH_AUDIENCE_LIST", .strList ["a", "b"]⟩]⟩ ∈
      executedSince [] (UpdateSecurityIntegration expandStringList oauthFullData exampleDB []) :=
  ⟨by decide, by decide,
    ((UpdateSecurityIntegration_audience_list audienceData exampleDB [] (by decide)
      (by decide)).1 (by decide)).1,
    by decide, by decide,
    ((UpdateSecurityIntegration_audience_list oauthFullData exampleDB [] (by decide)
      (by decide)).2 (by decide)).1⟩

/-- Counterexample to C6 as stated: only the audience list of the example
integration has changed, to the list of `a`, the empty string and `b`, which is
not empty; the one SET statement executed has `EXTERNAL_OAUTH_AUDIENCE_LIST`
with `a` and `b`, which is not the new list. -/
theorem UpdateSecurityIntegration_audience_list_drops_empty :
    audienceGapData.HasChange "type" = false ∧
    audienceGapData.HasChange "external_oauth_audience_list" = true ∧
    (audienceGapData.Get "external_oauth_audience_list").asList = ["a", "", "b"] ∧
    executedSince [] (UpdateSecurityIntegration expandStringList audienceGapData exampleDB []) =
      [.statement ⟨.alter, snowflake.SecurityIntegration "SEC1",
          [⟨"EXTERNAL_OAUTH_AUDIENCE_LIST", .strList ["a", "b"]⟩]⟩,
        .showStmt (snowflake.SecurityIntegration "SEC1"),
        .describeStmt (snowflake.SecurityIntegration "SEC1")] ∧
    PropertyValue.strList ["a", "b"] ≠ PropertyValue.strList ["a", "", "b"] := by
  decide

end resources
